import Mathlib

/-!
Shallow embedding of the git-change tool (Nextdoor/git-change): the modules
git_change/git_change.py, git_change/git.py and git_change/git_owners.py.

Python strings are modelled as lists of characters (`PyStr`), Python
exceptions as an explicit `Except PyExc` result, and the process world
(subprocess runs, prompts, prints, process exit) as a small state monad `M`
over an oracle that answers each subprocess invocation and each prompt in
order.  The abstract branch set of the local repository is maintained by
interpreting the successful git commands that create, rename or delete
branches.
-/

/-- Python strings, modelled as lists of characters. -/
abbrev PyStr := List Char

/-- Embeds a Lean string literal into the `PyStr` model. -/
def toL (s : String) : PyStr := s.toList

/-- Python `str.split(sep)` for a one-character separator: splits on every
occurrence of the separator, keeping empty pieces, and yields `[""]` on the
empty string. -/
def pySplit (sep : Char) : PyStr → List PyStr
  | [] => [[]]
  | c :: cs =>
    if c = sep then [] :: pySplit sep cs
    else
      match pySplit sep cs with
      | [] => [[c]]
      | w :: ws => (c :: w) :: ws

/-- Python `str.strip()`: removes leading and trailing whitespace. -/
def pyStrip (s : PyStr) : PyStr :=
  ((s.dropWhile Char.isWhitespace).reverse.dropWhile Char.isWhitespace).reverse

/-- Python `str.lower()`. -/
def pyLower (s : PyStr) : PyStr := s.map Char.toLower

/-- Python `str.isdigit()` (restricted to ASCII digits). -/
def pyIsDigit (s : PyStr) : Bool := !s.isEmpty && s.all Char.isDigit

/-- Python `int(s)` on a string of ASCII digits. -/
def pyToNat (s : PyStr) : Nat := s.foldl (fun n c => 10 * n + (c.toNat - 48)) 0

/-- Python `'{0:>2}'`-style right alignment used by the list menu. -/
def pyRightAlign (width : Nat) (s : PyStr) : PyStr :=
  List.replicate (width - s.length) ' ' ++ s

/-- Python file-object line iteration: each line keeps its trailing newline;
a final fragment without a newline is its own line; the empty text has no
lines. -/
def pyLines : PyStr → List PyStr
  | [] => []
  | c :: cs =>
    if c = '\n' then [c] :: pyLines cs
    else
      match pyLines cs with
      | [] => [[c]]
      | l :: ls => (c :: l) :: ls

/-- Python exception outcomes distinguished by the embedding. -/
inductive PyExc where
  | calledProcessError (returncode : Int) (cmd stdout stderr : PyStr)
  | keyboardInterrupt
  | eofError
  | gitError
  | valueError
  | keyError
  | indexError
  | systemExit (status : Int)
deriving DecidableEq

/-- Python tuple unpacking `a, b = xs` of a list into exactly two names;
raises ValueError when the list does not have exactly two elements. -/
def unpack2 (xs : List PyStr) : Except PyExc (PyStr × PyStr) :=
  match xs with
  | [a, b] => .ok (a, b)
  | _ => .error .valueError

/-- Python list indexing with negative-index wrap-around; raises IndexError
when the index is out of range on both ends. -/
def pyListIndex (l : List PyStr) (i : Int) : Except PyExc PyStr :=
  let j := if i < 0 then i + l.length else i
  if h : 0 ≤ j ∧ j.toNat < l.length then .ok (l.get ⟨j.toNat, h.2⟩)
  else .error .indexError

/-- Pure core of `git_change.get_change_id_from_branch`, as a function of the
current branch name supplied by `git.get_branch`:

    if branch.startswith('change-I'):
        _, change_id = branch.split('-')
        return change_id
    return None
-/
def get_change_id_from_branch_of (branch : PyStr) : Except PyExc (Option PyStr) :=
  if (toL "change-I").isPrefixOf branch then
    match unpack2 (pySplit '-' branch) with
    | .ok (_, change_id) => .ok (some change_id)
    | .error e => .error e
  else .ok none

/-- Pure core of `git_change.get_change_id_from_head`, as a function of the
trapped stdout of `git cat-file -p HEAD`: scans the lines for the first one
starting with `Change-Id:`, splits it on `:` and strips the value. -/
def get_change_id_from_head_of (output : PyStr) : Except PyExc (Option PyStr) :=
  match (pySplit '\n' output).find? (fun line => (toL "Change-Id:").isPrefixOf line) with
  | some line =>
    match unpack2 (pySplit ':' line) with
    | .ok (_, change_id) => .ok (some (pyStrip change_id))
    | .error e => .error e
  | none => .ok none

/-- The command-line flags of git-change that the embedded functions read. -/
structure Flags where
  reviewers : List PyStr
  cc : List PyStr
  bug : Option PyStr
  message : Option PyStr
  topic : Option PyStr
  skip : Option PyStr
  fetch : Bool
  switch : Bool
  chain : Bool
  useHeadCommit : Bool
  mergeCommit : Bool
  fakePush : Bool
  dryRun : Bool
  remote : PyStr
  gerritSshHost : PyStr
deriving DecidableEq

/-- `git_change.build_push_command` (the returned string; the monadic wrapper
below additionally prints `Fake pushing`).  Blank reviewer and cc entries are
skipped by the `if reviewer:` and `if cc:` guards of the source. -/
def build_push_command (flags : Flags) (branch : PyStr) : PyStr :=
  let command := toL "git push " ++ flags.remote
  let receivePackArgs :=
    (flags.reviewers.filter (fun r => r ≠ [])).map (fun r => toL "--reviewer=" ++ r) ++
      (flags.cc.filter (fun c => c ≠ [])).map (fun c => toL "--cc=" ++ c)
  let command :=
    if receivePackArgs ≠ [] then
      command ++ toL " --receive-pack=\"git receive-pack " ++
        List.intercalate (toL " ") receivePackArgs ++ toL "\""
    else command
  let command := command ++ toL " HEAD:refs/for/" ++ branch
  let command :=
    match flags.topic with
    | some t => command ++ toL "/" ++ t
    | none => command
  if flags.fakePush then toL "echo " ++ command else command

/-! ### The owners resolver (git_owners.py) -/

/-- posixpath basename: the part after the last slash. -/
def pyBasename (p : PyStr) : PyStr := (p.reverse.takeWhile (fun c => c ≠ '/')).reverse

/-- posixpath dirname: everything up to the last slash, with trailing
slashes removed unless the result consists only of slashes. -/
def pyDirname (p : PyStr) : PyStr :=
  let head := (p.reverse.dropWhile (fun c => c ≠ '/')).reverse
  if head.isEmpty then head
  else if head.all (fun c => c = '/') then head
  else (head.reverse.dropWhile (fun c => c = '/')).reverse

/-- posixpath join of a directory and a relative entry name. -/
def posixJoin (a b : PyStr) : PyStr :=
  if b.head? = some '/' then b
  else if a = [] ∨ a.getLast? = some '/' then a ++ b
  else a ++ '/' :: b

/-- Iterated `os.path.dirname`. -/
def iterDirname : Nat → PyStr → PyStr
  | 0, p => p
  | k + 1, p => iterDirname k (pyDirname p)

/-- Abstract filesystem for the owners resolver: directory listings, the
file test, file contents, and the repository root as reported by
`git rev-parse --show-toplevel`. -/
structure FS where
  listdir : PyStr → List PyStr
  isFile : PyStr → Bool
  fileText : PyStr → PyStr
  root : PyStr

/-- git_owners.OWNERS_FILE. -/
def OWNERS_FILE : PyStr := toL "OWNERS"

/-- git_owners._is_owners_file. -/
def is_owners_file (fs : FS) (path : PyStr) : Bool :=
  fs.isFile path && (pyBasename path == OWNERS_FILE)

/-- git_owners.get_owners_for_dir, with explicit fuel bounding the number of
recursion steps (`none` means the recursion did not finish within the fuel).
The directory scan returns, for the first listed entry that is an owners
file, every line of that file stripped of surrounding whitespace; otherwise
it stops at the repository root or recurses into the parent directory. -/
def get_owners_for_dir (fs : FS) : Nat → PyStr → Option (List PyStr)
  | 0, _ => none
  | fuel + 1, dir_path =>
    match (fs.listdir dir_path).find? (fun f => is_owners_file fs (posixJoin dir_path f)) with
    | some f => some ((pyLines (fs.fileText (posixJoin dir_path f))).map pyStrip)
    | none =>
      if dir_path = fs.root then some []
      else get_owners_for_dir fs fuel (pyDirname dir_path)

/-! ### Gerrit JSON records -/

/-- Flat JSON values appearing as fields of a Gerrit record.  `nested` stands
for a nested object or array, which the code under study never inspects. -/
inductive JVal where
  | str (s : PyStr)
  | num (n : Int)
  | bool (b : Bool)
  | null
  | nested (tag : Nat)
deriving DecidableEq

/-- A parsed Gerrit JSON record (one newline-delimited response line). -/
abbrev JObj := List (PyStr × JVal)

/-- Python truthiness of a record field value. -/
def pyTruthy : JVal → Bool
  | .str s => !s.isEmpty
  | .num n => n != 0
  | .bool b => b
  | .null => false
  | .nested _ => true

/-- Python `'%s' % value` formatting of a record field value. -/
def jFormat : JVal → PyStr
  | .str s => s
  | .num n => toL n.repr
  | .bool b => if b then toL "True" else toL "False"
  | .null => toL "None"
  | .nested _ => toL "<object>"

/-- The test `'type' in result and result['type'] == 'stats'` of
git.search_gerrit. -/
def isStatsRecord (r : JObj) : Bool :=
  match List.lookup (toL "type") r with
  | some (.str s) => s == toL "stats"
  | some _ => false
  | none => false

/-- The response-processing loop of `git.search_gerrit`: skip empty lines,
parse each remaining line (a parse failure raises ValueError just as
simplejson does), remember the most recent record whose `type` field equals
`stats`, and accumulate all other records in order. -/
def gerrit_loop (parse : PyStr → Option JObj) :
    List PyStr → List JObj → Option JObj → Except PyExc (List JObj × Option JObj)
  | [], results, stats => .ok (results, stats)
  | line :: rest, results, stats =>
    if line = [] then gerrit_loop parse rest results stats
    else
      match parse line with
      | none => .error .valueError
      | some r =>
        if isStatsRecord r then gerrit_loop parse rest results (some r)
        else gerrit_loop parse rest (results ++ [r]) stats

/-- Pure core of `git.search_gerrit`, as a function of the trapped stdout of
the ssh query command. -/
def parse_gerrit_response (parse : PyStr → Option JObj) (response : PyStr) :
    Except PyExc (List JObj × Option JObj) :=
  gerrit_loop parse (pySplit '\n' response) [] none

/-! ### The process monad -/

/-- Outcome of one subprocess invocation: its exit code and the text it
wrote to stdout and stderr, or a user interrupt delivered during the call. -/
inductive CmdOutcome where
  | finished (code : Int) (stdout : PyStr) (stderr : PyStr)
  | interrupt
deriving DecidableEq

/-- Outcome of one raw_input prompt. -/
inductive InputOutcome where
  | line (s : PyStr)
  | eof
  | interrupt
deriving DecidableEq

/-- One observable step of an execution. -/
inductive Step where
  | cmd (command : PyStr) (outcome : CmdOutcome)
  | cmdShell (command : PyStr) (outcome : CmdOutcome)
  | echo (message : PyStr)
  | echoErr (message : PyStr)
  | prompt (message : PyStr) (outcome : InputOutcome)
  | exited (status : Int)
deriving DecidableEq

/-- The fixed data of one execution: the flag values, the oracle answering
each subprocess invocation and each prompt in order, the JSON parser, and
the `time.time()` text used in the temporary branch name. -/
structure PEnv where
  flags : Flags
  cmds : Nat → CmdOutcome
  inputs : Nat → InputOutcome
  parse : PyStr → Option JObj
  timestamp : PyStr

/-- The evolving execution state: oracle positions, the observable trace,
and the abstract branch set and current branch of the local repository. -/
structure PSt where
  cmdIdx : Nat
  inIdx : Nat
  trace : List Step
  branches : List PyStr
  current : PyStr
deriving DecidableEq

/-- The execution monad: reader of `PEnv`, state of `PSt`, exceptions as
`Except PyExc`. -/
def M (α : Type) := PEnv → PSt → Except PyExc α × PSt

instance : Monad M where
  pure a := fun _ s => (.ok a, s)
  bind x f := fun env s =>
    match x env s with
    | (.ok a, s') => f a env s'
    | (.error e, s') => (.error e, s')

/-- Raise a Python exception. -/
def liftExc (x : Except PyExc α) : M α := fun _ s => (x, s)

/-- `try body except ...: handler e` (the handler re-raises what it does not
match). -/
def pyTry (body : M α) (handler : PyExc → M α) : M α := fun env s =>
  match body env s with
  | (.ok a, s') => (.ok a, s')
  | (.error e, s') => handler e env s'

/-- Append one step to the trace. -/
def emit (st : Step) : M Unit := fun _ s =>
  (.ok (), { s with trace := s.trace ++ [st] })

/-- Read the flag values. -/
def readFlags : M Flags := fun env s => (.ok env.flags, s)

/-- Read the `time.time()` text. -/
def readTimestamp : M PyStr := fun env s => (.ok env.timestamp, s)

/-- `print` to stdout. -/
def pyPrint (message : PyStr) : M Unit := emit (.echo message)

/-- `sys.stderr.write`. -/
def stderrWrite (message : PyStr) : M Unit := emit (.echoErr message)

/-- `sys.exit(status)`. -/
def sysExit (status : Int) : M Unit := fun _ s =>
  (.error (.systemExit status), { s with trace := s.trace ++ [.exited status] })

/-- Interpretation of a successful git command on the abstract repository:
`git checkout -b X` creates X and switches to it, `git branch -m A B`
renames A to B, `git branch -d X` deletes X, `git checkout X` switches to
X; every other command leaves the branch set and current branch unchanged. -/
def applyGitCmd (command : PyStr) (s : PSt) : PSt :=
  match pySplit ' ' command with
  | [a, b, c] =>
    if a = toL "git" ∧ b = toL "checkout" then { s with current := c } else s
  | [a, b, c, d] =>
    if a = toL "git" ∧ b = toL "checkout" ∧ c = toL "-b" then
      { s with branches := s.branches ++ [d], current := d }
    else if a = toL "git" ∧ b = toL "branch" ∧ c = toL "-d" then
      { s with branches := s.branches.erase d }
    else s
  | [a, b, c, d, e] =>
    if a = toL "git" ∧ b = toL "branch" ∧ c = toL "-m" then
      { s with branches := s.branches.erase d ++ [e],
               current := if s.current = d then e else s.current }
    else s
  | _ => s

/-- git.run_command: in dry-run mode prints the command and returns a fixed
sentinel; otherwise the oracle's next outcome decides.  A non-zero exit code
optionally prints diagnostics and raises CalledProcessError carrying the
trapped output; on exit code 0 the trapped stdout (or the empty string) is
returned and the abstract repository is updated. -/
def run_command (command : PyStr) (trapStdout trapStderr outputOnError : Bool) :
    M PyStr := fun env s =>
  if env.flags.dryRun then
    (.ok (toL "dry-run-no-output\n"),
      { s with trace := s.trace ++ [.echo (toL "run_command >>> " ++ command)] })
  else
    match env.cmds s.cmdIdx with
    | .interrupt =>
      (.error .keyboardInterrupt,
        { s with cmdIdx := s.cmdIdx + 1,
                 trace := s.trace ++ [.cmd command .interrupt] })
    | .finished code out err =>
      if code = 0 then
        (.ok (if trapStdout then out else []),
          applyGitCmd command
            { s with cmdIdx := s.cmdIdx + 1,
                     trace := s.trace ++ [.cmd command (.finished code out err)] })
      else
        let diag : List Step :=
          if outputOnError then
            [.echo (toL "Error running \"" ++ command ++ toL "\""),
             .echo (toL "  return code: " ++ toL code.repr)] ++
              (if trapStdout then [.echo (toL "  stdout: " ++ out)] else []) ++
              (if trapStderr then [.echo (toL "  stderr: " ++ err)] else [])
          else []
        (.error (.calledProcessError code command
            (if trapStdout then out else []) (if trapStderr then err else [])),
          { s with cmdIdx := s.cmdIdx + 1,
                   trace := s.trace ++ [.cmd command (.finished code out err)] ++ diag })

/-- git.run_command_or_die: trap both channels, and on failure write the
command's stderr and exit with its status. -/
def run_command_or_die (command : PyStr) : M PyStr := fun env s =>
  match run_command command true true false env s with
  | (.ok out, s') => (.ok out, s')
  | (.error (.calledProcessError code _ _ se), s') =>
    (.error (.systemExit code), { s' with trace := s'.trace ++ [.echoErr se, .exited code] })
  | (.error e, s') => (.error e, s')

/-- git.run_command_shell (interactive commands such as git commit). -/
def run_command_shell (command : PyStr) : M Unit := fun env s =>
  if env.flags.dryRun then
    (.ok (),
      { s with trace := s.trace ++ [.echo (toL "run_command_shell >>> " ++ command)] })
  else
    match env.cmds s.cmdIdx with
    | .interrupt =>
      (.error .keyboardInterrupt,
        { s with cmdIdx := s.cmdIdx + 1,
                 trace := s.trace ++ [.cmdShell command .interrupt] })
    | .finished code out err =>
      if code = 0 then
        (.ok (),
          { s with cmdIdx := s.cmdIdx + 1,
                   trace := s.trace ++ [.cmdShell command (.finished code out err)] })
      else
        (.error (.calledProcessError code command [] []),
          { s with cmdIdx := s.cmdIdx + 1,
                   trace := s.trace ++ [.cmdShell command (.finished code out err)] })

/-- `raw_input(message)`. -/
def raw_input (message : PyStr) : M PyStr := fun env s =>
  match env.inputs s.inIdx with
  | .line t =>
    (.ok t, { s with inIdx := s.inIdx + 1, trace := s.trace ++ [.prompt message (.line t)] })
  | .eof =>
    (.error .eofError,
      { s with inIdx := s.inIdx + 1, trace := s.trace ++ [.prompt message .eof] })
  | .interrupt =>
    (.error .keyboardInterrupt,
      { s with inIdx := s.inIdx + 1, trace := s.trace ++ [.prompt message .interrupt] })

/-- git_change.exit_error: writes prefix+message to stderr and exits. -/
def exit_error (message pre : PyStr) (status : Int) : M Unit := fun _ s =>
  (.error (.systemExit status),
    { s with trace := s.trace ++ [.echoErr (pre ++ message ++ toL "\n"), .exited status] })

/-! ### The git facade (git.py) -/

/-- git.get_branch. -/
def get_branch : M PyStr := fun env s =>
  if env.flags.dryRun then (.ok (toL "fake-branch"), s)
  else
    match run_command (toL "git symbolic-ref HEAD") true false true env s with
    | (.ok output, s') =>
      if (pySplit '/' output).length = 3 then
        (.ok (pyStrip ((pySplit '/' output).getD 2 [])), s')
      else (.error .gitError, s')
    | (.error e, s') => (.error e, s')

/-- git.search_gerrit. -/
def search_gerrit (query : PyStr) : M (List JObj × Option JObj) := fun env s =>
  match run_command (toL "ssh " ++ env.flags.gerritSshHost ++
      toL " gerrit query --format=JSON " ++ query) true false true env s with
  | (.ok response, s') => (parse_gerrit_response env.parse response, s')
  | (.error e, s') => (.error e, s')

/-! ### The lifecycle engine (git_change.py) -/

/-- git_change.get_change_id_from_branch. -/
def get_change_id_from_branch : M (Option PyStr) := do
  let branch ← get_branch
  liftExc (get_change_id_from_branch_of branch)

/-- git_change.get_change_id_from_head. -/
def get_change_id_from_head : M (Option PyStr) := do
  let output ← run_command (toL "git cat-file -p HEAD") true false true
  liftExc (get_change_id_from_head_of output)

/-- git_change.build_push_command as executed: prints `Fake pushing` when
--fake-push is set and returns the command string. -/
def build_push_command_m (branch : PyStr) : M PyStr := fun env s =>
  if env.flags.fakePush then
    (.ok (build_push_command env.flags branch),
      { s with trace := s.trace ++ [.echo (toL "Fake pushing")] })
  else (.ok (build_push_command env.flags branch), s)

/-- Python dictionary access `record[key]` (KeyError when absent). -/
def jIndex (r : JObj) (k : PyStr) : M JVal :=
  match List.lookup k r with
  | some v => pure v
  | none => liftExc (.error .keyError)

/-- git_change.get_change. -/
def get_change (change_id : PyStr) : M JObj := do
  let pair ← search_gerrit (toL "change:" ++ change_id)
  let results := pair.1
  if results.length < 1 then do
    exit_error (toL "Unable to find Gerrit change for ID " ++ change_id ++ toL ".")
      (toL "Error: ") 1
    pure []
  else if results.length > 1 then do
    exit_error (toL "Got multiple results searching Gerrit for " ++ change_id ++ toL ".")
      (toL "Error: ") 1
    pure []
  else pure (results.getD 0 [])

/-- git_change.check_for_change_branch. -/
def check_for_change_branch : M PyStr := do
  let changeId? ← get_change_id_from_branch
  match changeId? with
  | none => do
    exit_error
      (toL "The current branch must be a change branch previously created by git-change.")
      (toL "Error: ") 1
    pure []
  | some change_id => do
    let head? ← get_change_id_from_head
    match head? with
    | none => do
      exit_error
        (toL "The commit message at HEAD does not contain a valid change ID header.")
        (toL "Error: ") 1
      pure []
    | some head_change_id =>
      if head_change_id ≠ change_id then do
        exit_error
          (toL "The change ID in the commit message at HEAD (" ++ head_change_id ++
            toL ")\ndoes not match the change ID embedded in the branch name (" ++
            change_id ++ toL ").")
          (toL "Error: ") 1
        pure []
      else pure change_id

/-- git_change.commit_change (the BUG_ID/SKIP environment dictionary is not
modelled: it influences neither the command text nor the control flow). -/
def commit_change (args : Option (List PyStr)) : M Unit := do
  let flags ← readFlags
  let command := toL "git commit"
  let command :=
    match args with
    | some a => command ++ toL " " ++ List.intercalate (toL " ") a
    | none => command
  let command :=
    match flags.message with
    | some m => command ++ toL " -m \"" ++ m ++ toL "\""
    | none => command
  run_command_shell command

/-- git_change.update_change. -/
def update_change : M Unit := do
  let change_id ← check_for_change_branch
  let change ← get_change change_id
  let openVal ← jIndex change (toL "open")
  if !pyTruthy openVal then
    exit_error (toL "Change " ++ change_id ++ toL " is no longer open.") (toL "Error: ") 1
  else pure ()
  let flags ← readFlags
  let doAmend ←
    if flags.reviewers ≠ [] ∨ flags.cc ≠ [] ∨ flags.bug.isSome then pure true
    else do
      let d ← run_command (toL "git diff --cached --name-status") true false true
      pure (d != ([] : PyStr))
  if doAmend then commit_change (some [toL "--amend"]) else pure ()
  let branchVal ← jIndex change (toL "branch")
  let command ← build_push_command_m (jFormat branchVal)
  pyTry (do let _ ← run_command command false false true; pure ())
    (fun e =>
      match e with
      | .calledProcessError code _ _ _ => sysExit code
      | _ => liftExc (.error e))

/-- git_change.check_for_pending_changes. -/
def check_for_pending_changes : M Unit := do
  let output ← run_command (toL "git status --porcelain --untracked-files=no") true false true
  if output ≠ [] then do
    let _ ← run_command (toL "git status") false false true
    exit_error
      (toL "You have uncommitted changes in your working tree/index. Please stash them and try again.")
      (toL "Error: ") 1
  else pure ()

/-- git_change.sanity_check_merge_commit. -/
def sanity_check_merge_commit : M Unit := do
  let output ← run_command (toL "git cat-file -p HEAD") true false true
  let lines := pySplit '\n' output
  let numParents := (lines.filter (fun l => (toL "parent ").isPrefixOf l)).length
  let mergeMessageSeen := lines.any (fun l => (toL "Merge branch ").isPrefixOf l)
  if numParents < 2 ∨ mergeMessageSeen = false then do
    let user_input ← raw_input (toL "The HEAD commit does not look like a merge. Continue? ")
    if (toL "y").isPrefixOf (pyLower user_input) then pure ()
    else do
      pyPrint (toL "Aborted")
      sysExit 1
  else pure ()

/-- git_change.check_unmerged_commits. -/
def check_unmerged_commits (branch : PyStr) : M Bool := do
  let flags ← readFlags
  let output ← run_command (toL "git log --oneline " ++ branch ++ toL " ^" ++
    flags.remote ++ toL "/" ++ branch ++ toL " --") true false true
  if output = [] ∨ flags.dryRun then pure false
  else do
    pyPrint (toL "Your branch " ++ branch ++
      toL " is ahead of its remote by the following " ++
      toL (Nat.repr (pySplit '\n' output).length) ++ toL " commit(s):\n")
    emit (.echo output)
    let user_input ← raw_input (toL "\nIf we continue, each of the commits above may result in a new code\nreview and a submit dependency in Gerrit. You might try syncing the\nremote branch by passing the --fetch flag.\nContinue? ")
    if (toL "y").isPrefixOf (pyLower user_input) then pure false
    else do
      pyPrint (toL "\nAborted")
      pure true

/-- git_change.determine_branches. -/
def determine_branches : M (PyStr × PyStr) := do
  let original_branch ← get_branch
  let flags ← readFlags
  if flags.chain then do
    let previousChangeId? ← get_change_id_from_branch
    match previousChangeId? with
    | none => do
      exit_error (toL "The current branch must be a change branch when you specify --chain.")
        (toL "Error: ") 1
      pure ([], [])
    | some previous_change_id => do
      let previous_change ← get_change previous_change_id
      let tb ← jIndex previous_change (toL "branch")
      pure (original_branch, jFormat tb)
  else
    if (toL "change-I").isPrefixOf original_branch then do
      exit_error
        (toL "You are in a temporary change branch. If you wish to chain commits, pass --chain.")
        (toL "Error: ") 1
      pure ([], [])
    else pure (original_branch, original_branch)

/-- git_change.commit_staged_changes. -/
def commit_staged_changes (original_branch tmp_branch : PyStr) : M Unit :=
  pyTry (commit_change none)
    (fun e =>
      match e with
      | .keyboardInterrupt => do
        let _ ← run_command (toL "git checkout " ++ original_branch) false false true
        let _ ← run_command (toL "git branch -d " ++ tmp_branch) false false true
        sysExit 1
      | .calledProcessError code _ _ _ => do
        let _ ← run_command (toL "git checkout " ++ original_branch) false false true
        let _ ← run_command (toL "git branch -d " ++ tmp_branch) false false true
        sysExit code
      | _ => liftExc (.error e))

/-- Lines 429-455 of git_change.create_change: the staged-diff check, the
merge-commit checks, branch determination, the optional fetch and the
unmerged-commits check.  Returns the original and target branches. -/
def create_change_precheck : M (PyStr × PyStr) := do
  let flags ← readFlags
  let _ ← (if !flags.useHeadCommit then do
      let d ← run_command (toL "git diff --cached --name-status") true false true
      if d = [] then
        exit_error
          (toL "You have no staged changes; exiting.\n(You may want to specify --use-head-commit.)")
          (toL "") 1
      else pure ()
    else pure ())
  let _ ← (if flags.mergeCommit then do
      check_for_pending_changes
      sanity_check_merge_commit
    else pure ())
  let pair ← determine_branches
  let _ ← (if flags.fetch then do
      let _ ← run_command (toL "git fetch " ++ flags.remote) false false true
      pure ()
    else pure ())
  let _ ← (if !flags.chain && !flags.mergeCommit then do
      let ahead ← check_unmerged_commits pair.1
      if ahead then sysExit 1 else pure ()
    else pure ())
  pure pair

/-- Lines 456-468 of git_change.create_change: create and switch to the
temporary branch, commit the staged changes unless the HEAD commit is used,
and read (after amending, in head-commit mode, when absent) the Change-Id
of HEAD. -/
def create_change_mkbranch (original_branch tmp_branch : PyStr) : M (Option PyStr) := do
  let flags ← readFlags
  let _ ← run_command (toL "git checkout -b " ++ tmp_branch) true false true
  let _ ← (if !flags.useHeadCommit then commit_staged_changes original_branch tmp_branch
    else pure ())
  let changeId? ← get_change_id_from_head
  if flags.useHeadCommit && changeId?.isNone then do
    commit_change (some [toL "--amend"])
    get_change_id_from_head
  else pure changeId?

/-- Lines 429-478 of git_change.create_change: validation, temporary branch
creation, commit, Change-Id lookup and rename.  Returns the original branch,
the target branch and the resulting branch name. -/
def create_change_setup : M (PyStr × PyStr × PyStr) := do
  let pair ← create_change_precheck
  let ts ← readTimestamp
  let tmp_branch := toL "tmp-change-" ++ ts
  let changeId? ← create_change_mkbranch pair.1 tmp_branch
  match changeId? with
  | none => do
    pyPrint (toL "\nWARNING: Reading change ID from the HEAD commit failed. (You may need to\ninstall the Gerrit commit-msg hook.) Before continuing, you need to add\nthe change ID header to the HEAD commit message (git commit --amend) and\nrename the branch " ++ tmp_branch ++ toL " to change-<change-ID> manaully.")
    pyPrint (toL "\nCreated branch: " ++ tmp_branch ++ toL "\n")
    pure (pair.1, pair.2, tmp_branch)
  | some change_id => do
    let new_branch := toL "change-" ++ change_id
    let _ ← run_command (toL "git branch -m " ++ tmp_branch ++ toL " " ++ new_branch)
      false false true
    pyPrint (toL "\nCreated branch: " ++ new_branch ++ toL "\n")
    pure (pair.1, pair.2, new_branch)

/-- Lines 480-510 of git_change.create_change: the push, its rollback on
failure, and the post-push branch switching. -/
def create_change_finish (original_branch target_branch new_branch : PyStr) : M Unit := do
  let flags ← readFlags
  let command ← build_push_command_m target_branch
  pyTry (do let _ ← run_command command false false true; pure ())
    (fun e =>
      match e with
      | .calledProcessError code _ _ _ => do
        let _ ← run_command (toL "git reset --soft HEAD^") false false true
        let _ ← run_command (toL "git checkout " ++ original_branch) false false true
        let _ ← run_command (toL "git branch -d " ++ new_branch) false false true
        sysExit code
      | _ => liftExc (.error e))
  if flags.mergeCommit then do
    let _ ← run_command (toL "git checkout " ++ original_branch) false false true
    let _ ← run_command (toL "git reset --hard HEAD^") false false true
    pyPrint (toL "Removed HEAD commit from branch " ++ original_branch)
    if flags.switch || flags.chain then do
      let _ ← run_command (toL "git checkout " ++ new_branch) false false true
      pure ()
    else pure ()
  else
    if flags.switch || flags.chain then pure ()
    else do
      let _ ← run_command_or_die (toL "git checkout " ++ original_branch)
      pure ()

/-- git_change.create_change. -/
def create_change : M Unit := do
  let triple ← create_change_setup
  create_change_finish triple.1 triple.2.1 triple.2.2

/-- git_change.get_change_branches. -/
def get_change_branches : M (List PyStr) := do
  let output ← run_command
    (toL "git for-each-ref --format=\"%(refname:short)\" --sort=authordate refs/heads/change-*")
    true false true
  if output ≠ [] then pure (pySplit '\n' (pyStrip output)) else pure []

/-- The menu-printing loop of git_change.list_change_branches. -/
def print_branch_menu : List PyStr → Nat → M Unit
  | [], _ => pure ()
  | branch :: rest, i => do
    let output ← run_command (toL "git log --oneline -1 " ++ branch ++ toL " --") true false true
    emit (.echo (pyRightAlign 2 (toL (Nat.repr (i + 1))) ++ toL ". " ++ branch ++
      toL " " ++ output))
    print_branch_menu rest (i + 1)

/-- git_change.list_change_branches. -/
def list_change_branches : M Unit := do
  let branches ← get_change_branches
  if branches = [] then
    pyPrint (toL "You have no change branches to list")
  else do
    pyPrint (toL "Change branches:\n")
    print_branch_menu branches 0
    let sel? ← pyTry
      (do
        let s ← raw_input (toL "\nSelect a branch number to check out, or hit enter to exit: ")
        pure (some s))
      (fun e =>
        match e with
        | .eofError => pure none
        | .keyboardInterrupt => pure none
        | _ => liftExc (.error e))
    match sel? with
    | none => pure ()
    | some selection =>
      if pyIsDigit selection ∧ pyToNat selection ≤ branches.length then do
        let b ← liftExc (pyListIndex branches ((pyToNat selection : Int) - 1))
        let _ ← run_command_or_die (toL "git checkout " ++ b)
        pure ()
      else if selection ≠ [] then pyPrint (toL "Not a valid selection")
      else pure ()

/-- Independent parse of a list of response lines (the specification-side
view of the loop of search_gerrit): all lines parse, in order. -/
def parseAll (parse : PyStr → Option JObj) : List PyStr → Option (List JObj)
  | [] => some []
  | l :: rest =>
    match parse l, parseAll parse rest with
    | some r, some rs => some (r :: rs)
    | _, _ => none

/-! ### Concrete fixtures used by the witnesses -/

/-- Witness flag values: one blank reviewer entry and one blank cc entry
(trailing-comma artifacts), a topic, no fake push, not a dry run. -/
def flagsW : Flags where
  reviewers := [toL "alice", [], toL "bob"]
  cc := [[], toL "carol"]
  bug := none
  message := none
  topic := some (toL "topic1")
  skip := none
  fetch := false
  switch := false
  chain := false
  useHeadCommit := false
  mergeCommit := false
  fakePush := false
  dryRun := false
  remote := toL "origin"
  gerritSshHost := toL "review.example.com"

/-- Witness filesystem for the owners counterexample: the repository root is
`/r`, and `/r/a` contains an OWNERS file whose text is a single blank line. -/
def fsC5 : FS where
  listdir := fun d => if d = toL "/r/a" then [toL "OWNERS"] else []
  isFile := fun p => p == toL "/r/a/OWNERS"
  fileText := fun p => if p = toL "/r/a/OWNERS" then toL "\n" else []
  root := toL "/r"

/-- A second owners counterexample filesystem: the OWNERS file under `/r/a`
holds one name followed by a blank line. -/
def fsC5b : FS where
  listdir := fun d => if d = toL "/r/a" then [toL "OWNERS"] else []
  isFile := fun p => p == toL "/r/a/OWNERS"
  fileText := fun p => if p = toL "/r/a/OWNERS" then toL "alice\n\n" else []
  root := toL "/r"

/-- A filesystem agreeing with fsC5b on the directory `/r/a` and its owners
file, but differing everywhere else (listings, contents, repository root):
used to witness that nothing outside the resolved directory is consulted. -/
def fsC5c : FS where
  listdir := fun d => if d = toL "/r/a" then [toL "OWNERS"] else [toL "junkfile"]
  isFile := fun p => p == toL "/r/a/OWNERS"
  fileText := fun p => if p = toL "/r/a/OWNERS" then toL "alice\n\n" else toL "junk"
  root := toL "/zzz"

/-- Witness filesystem for the termination claim: no owners files at all,
root `/r`. -/
def fsC10 : FS where
  listdir := fun _ => []
  isFile := fun _ => false
  fileText := fun _ => []
  root := toL "/r"

/-- Witness records for the Gerrit response partition. -/
def recW1 : JObj := [(toL "id", .str (toL "I1")), (toL "open", .bool true)]

/-- Second witness record. -/
def recW2 : JObj := [(toL "id", .str (toL "I2")), (toL "open", .bool false)]

/-- Witness stats record. -/
def recWs : JObj := [(toL "type", .str (toL "stats")), (toL "rowCount", .num 2)]

/-- Witness parse function for the Gerrit response. -/
def parseW : PyStr → Option JObj := fun l =>
  if l = toL "r1" then some recW1
  else if l = toL "r2" then some recW2
  else if l = toL "st" then some recWs
  else none

/-- Witness newline-delimited response: two records, an empty line, a stats
line, and a trailing newline. -/
def responseW : PyStr := toL "r1\n\nr2\nst\n"

/-- Witness initial state: positions zero, empty trace, two local branches,
currently on the change branch. -/
def stW : PSt where
  cmdIdx := 0
  inIdx := 0
  trace := []
  branches := [toL "master", toL "change-Iabc"]
  current := toL "change-Iabc"

/-- Witness environment for the change-branch check, matching case: the
branch name embeds Iabc and the HEAD message carries the same id. -/
def envC1a : PEnv where
  flags := flagsW
  cmds := fun n =>
    if n = 0 then .finished 0 (toL "refs/heads/change-Iabc\n") []
    else if n = 1 then .finished 0 (toL "tree 123\nChange-Id: Iabc\n") []
    else .finished 0 [] []
  inputs := fun _ => .line []
  parse := fun _ => none
  timestamp := toL "1700000000.25"

/-- Witness environment, missing Change-Id header in the HEAD message. -/
def envC1b : PEnv where
  flags := flagsW
  cmds := fun n =>
    if n = 0 then .finished 0 (toL "refs/heads/change-Iabc\n") []
    else if n = 1 then .finished 0 (toL "tree 123\nauthor a\n") []
    else .finished 0 [] []
  inputs := fun _ => .line []
  parse := fun _ => none
  timestamp := toL "1700000000.25"

/-- Witness environment, mismatched Change-Id header in the HEAD message. -/
def envC1c : PEnv where
  flags := flagsW
  cmds := fun n =>
    if n = 0 then .finished 0 (toL "refs/heads/change-Iabc\n") []
    else if n = 1 then .finished 0 (toL "tree 123\nChange-Id: Ixyz999\n") []
    else .finished 0 [] []
  inputs := fun _ => .line []
  parse := fun _ => none
  timestamp := toL "1700000000.25"

/-- Witness Gerrit change record: closed (`open` = false). -/
def recC7 : JObj := [(toL "open", .bool false), (toL "branch", .str (toL "master")),
  (toL "project", .str (toL "proj"))]

/-- Witness environment for the update-on-closed-change scenario. -/
def envC7 : PEnv where
  flags := flagsW
  cmds := fun n =>
    if n = 0 then .finished 0 (toL "refs/heads/change-Iabc\n") []
    else if n = 1 then .finished 0 (toL "tree 123\nChange-Id: Iabc\n") []
    else if n = 2 then .finished 0 (toL "chrec\nst\n") []
    else .finished 0 [] []
  inputs := fun _ => .line []
  parse := fun l =>
    if l = toL "chrec" then some recC7
    else if l = toL "st" then some recWs
    else none
  timestamp := toL "1700000000.25"

/-- Shared command oracle for the list-menu scenarios: a for-each-ref
listing two change branches, then one git-log line per branch; any further
command succeeds quietly. -/
def cmdsC8 : Nat → CmdOutcome := fun n =>
  if n = 0 then .finished 0 (toL "change-I1\nchange-I2\n") []
  else if n = 1 then .finished 0 (toL "abc1 first change\n") []
  else if n = 2 then .finished 0 (toL "abc2 second change\n") []
  else .finished 0 [] []

/-- List-menu environment whose user types `0` at the selection prompt. -/
def envC8 : PEnv where
  flags := flagsW
  cmds := cmdsC8
  inputs := fun _ => .line (toL "0")
  parse := fun _ => none
  timestamp := toL "1"

/-- List-menu environment whose user hits enter (blank input). -/
def envC8blank : PEnv where
  flags := flagsW
  cmds := cmdsC8
  inputs := fun _ => .line []
  parse := fun _ => none
  timestamp := toL "1"

/-- List-menu environment whose user types the out-of-range number `5`. -/
def envC8five : PEnv where
  flags := flagsW
  cmds := cmdsC8
  inputs := fun _ => .line (toL "5")
  parse := fun _ => none
  timestamp := toL "1"

/-- List-menu environment whose user types the non-numeric text `xy`. -/
def envC8text : PEnv where
  flags := flagsW
  cmds := cmdsC8
  inputs := fun _ => .line (toL "xy")
  parse := fun _ => none
  timestamp := toL "1"

/-- Start state for the create scenarios: a repository on `master` with no
change branches. -/
def stC2 : PSt where
  cmdIdx := 0
  inIdx := 0
  trace := []
  branches := [toL "master"]
  current := toL "master"

/-- Command oracle for the failed-push create scenario: staged diff, branch
name `master`, no unmerged commits, temporary branch creation, interactive
commit, a HEAD message carrying `Change-Id: Iabc`, the rename, a push that
exits with status 3, and successful rollback commands. -/
def cmdsC2 : Nat → CmdOutcome := fun n =>
  if n = 0 then .finished 0 (toL "M\tf\n") []
  else if n = 1 then .finished 0 (toL "refs/heads/master\n") []
  else if n = 5 then .finished 0 (toL "tree 1\nChange-Id: Iabc\n") []
  else if n = 7 then .finished 3 [] []
  else .finished 0 [] []

/-- Environment of the failed-push create scenario. -/
def envC2 : PEnv where
  flags := flagsW
  cmds := cmdsC2
  inputs := fun _ => .line []
  parse := fun _ => none
  timestamp := toL "1700000000.25"

/-- Environment of the successful create scenario: as `envC2` but every
command, the push included, succeeds. -/
def envC3ok : PEnv where
  flags := flagsW
  cmds := fun n =>
    if n = 0 then .finished 0 (toL "M\tf\n") []
    else if n = 1 then .finished 0 (toL "refs/heads/master\n") []
    else if n = 5 then .finished 0 (toL "tree 1\nChange-Id: Iabc\n") []
    else .finished 0 [] []
  inputs := fun _ => .line []
  parse := fun _ => none
  timestamp := toL "1700000000.25"

/-- Environment of the create scenario whose HEAD commit message carries no
Change-Id header; every command succeeds, so the run terminates normally. -/
def envC3none : PEnv where
  flags := flagsW
  cmds := fun n =>
    if n = 0 then .finished 0 (toL "M\tf\n") []
    else if n = 1 then .finished 0 (toL "refs/heads/master\n") []
    else if n = 5 then .finished 0 (toL "tree 1\n") []
    else .finished 0 [] []
  inputs := fun _ => .line []
  parse := fun _ => none
  timestamp := toL "1700000000.25"

/-! ### Theorems: generic facts about the string helpers -/

theorem pySplit_ne_nil (sep : Char) (s : PyStr) : pySplit sep s ≠ [] := by
  induction s with
  | nil => simp [pySplit]
  | cons c cs ih =>
    simp only [pySplit]
    split
    · simp
    · cases h : pySplit sep cs with
      | nil => simp
      | cons w ws => simp

theorem pySplit_not_mem (sep : Char) (s : PyStr) (h : sep ∉ s) :
    pySplit sep s = [s] := by
  induction s with
  | nil => rfl
  | cons c cs ih =>
    simp only [List.mem_cons, not_or] at h
    simp only [pySplit, if_neg (fun h' => h.1 (Eq.symm h'))]
    rw [ih h.2]

theorem pySplit_append (sep : Char) (a b : PyStr) (h : sep ∉ a) :
    pySplit sep (a ++ sep :: b) = a :: pySplit sep b := by
  induction a with
  | nil => simp [pySplit]
  | cons c cs ih =>
    simp only [List.mem_cons, not_or] at h
    simp only [List.cons_append, pySplit, if_neg (fun h' => h.1 (Eq.symm h')),
      List.append_eq, ih h.2]

theorem pySplit_length_pos (sep : Char) (s : PyStr) :
    1 ≤ (pySplit sep s).length := by
  cases hx : pySplit sep s with
  | nil => exact absurd hx (pySplit_ne_nil sep s)
  | cons w ws => simp

theorem pySplit_mem_length (sep : Char) (s : PyStr) (h : sep ∈ s) :
    2 ≤ (pySplit sep s).length := by
  induction s with
  | nil => cases h
  | cons c cs ih =>
    simp only [pySplit]
    by_cases hc : c = sep
    · rw [if_pos hc]
      have := pySplit_length_pos sep cs
      simp only [List.length_cons]
      omega
    · rw [if_neg hc]
      have hm : sep ∈ cs := by
        rcases List.mem_cons.mp h with h1 | h1
        · exact absurd h1.symm hc
        · exact h1
      cases hx : pySplit sep cs with
      | nil => exact absurd hx (pySplit_ne_nil sep cs)
      | cons w ws =>
        have := ih hm
        rw [hx] at this
        simp only [List.length_cons] at this ⊢
        omega

theorem unpack2_of_length_ne_two (xs : List PyStr) (h : xs.length ≠ 2) :
    unpack2 xs = .error .valueError := by
  match xs with
  | [] => rfl
  | [a] => rfl
  | [a, b] => simp at h
  | a :: b :: c :: rest => rfl

/-! ### Theorems: evaluation lemmas for the process monad -/

theorem M_bind_def {α β : Type} (x : M α) (f : α → M β) (env : PEnv) (s : PSt) :
    (x >>= f) env s =
      match x env s with
      | (.ok a, s') => f a env s'
      | (.error e, s') => (.error e, s') := rfl

theorem M_pure_def {α : Type} (a : α) (env : PEnv) (s : PSt) :
    (pure a : M α) env s = (.ok a, s) := rfl

theorem M_ite_apply {α : Type} (c : Prop) [Decidable c] (x y : M α) (env : PEnv) (s : PSt) :
    (if c then x else y) env s = if c then x env s else y env s := by
  split <;> rfl

theorem applyGitCmd_of_head_ne (command : PyStr) (s : PSt) (a : PyStr) (rest : List PyStr)
    (hx : pySplit ' ' command = a :: rest) (ha : a ≠ toL "git") :
    applyGitCmd command s = s := by
  unfold applyGitCmd
  rw [hx]
  rcases rest with _ | ⟨b, _ | ⟨c, _ | ⟨d, _ | ⟨e, _ | ⟨f, rest'⟩⟩⟩⟩⟩ <;> simp [ha]

theorem applyGitCmd_of_second_ne (command : PyStr) (s : PSt) (b : PyStr) (rest : List PyStr)
    (hx : pySplit ' ' command = toL "git" :: b :: rest)
    (hb1 : b ≠ toL "checkout") (hb2 : b ≠ toL "branch") :
    applyGitCmd command s = s := by
  unfold applyGitCmd
  rw [hx]
  rcases rest with _ | ⟨c, _ | ⟨d, _ | ⟨e, _ | ⟨f, rest'⟩⟩⟩⟩ <;> simp [hb1, hb2]

theorem run_command_ok (command : PyStr) (ts te oe : Bool) (env : PEnv) (s : PSt)
    (out err : PyStr) (hdry : env.flags.dryRun = false)
    (hc : env.cmds s.cmdIdx = .finished 0 out err) :
    run_command command ts te oe env s =
      (.ok (if ts then out else []),
        applyGitCmd command
          { s with cmdIdx := s.cmdIdx + 1,
                   trace := s.trace ++ [.cmd command (.finished 0 out err)] }) := by
  unfold run_command
  rw [hdry, hc]
  simp

theorem run_command_fail (command : PyStr) (ts te oe : Bool) (env : PEnv) (s : PSt)
    (code : Int) (out err : PyStr) (hdry : env.flags.dryRun = false)
    (hc : env.cmds s.cmdIdx = .finished code out err) (hcode : code ≠ 0) :
    run_command command ts te oe env s =
      (.error (.calledProcessError code command
          (if ts then out else []) (if te then err else [])),
        { s with cmdIdx := s.cmdIdx + 1,
                 trace := s.trace ++ [.cmd command (.finished code out err)] ++
                   (if oe then
                     [.echo (toL "Error running \"" ++ command ++ toL "\""),
                      .echo (toL "  return code: " ++ toL code.repr)] ++
                       (if ts then [.echo (toL "  stdout: " ++ out)] else []) ++
                       (if te then [.echo (toL "  stderr: " ++ err)] else [])
                   else []) }) := by
  unfold run_command
  rw [hdry, hc]
  simp [hcode]

theorem applyGitCmd_symref (s : PSt) :
    applyGitCmd (toL "git symbolic-ref HEAD") s = s := rfl

theorem applyGitCmd_catfile (s : PSt) :
    applyGitCmd (toL "git cat-file -p HEAD") s = s := rfl

theorem applyGitCmd_diff_cached (s : PSt) :
    applyGitCmd (toL "git diff --cached --name-status") s = s := rfl

theorem get_branch_ok (env : PEnv) (s : PSt) (out err p1 p2 p3 : PyStr)
    (hdry : env.flags.dryRun = false)
    (hc : env.cmds s.cmdIdx = .finished 0 out err)
    (hsplit : pySplit '/' out = [p1, p2, p3]) :
    get_branch env s =
      (.ok (pyStrip p3),
        { s with cmdIdx := s.cmdIdx + 1,
                 trace := s.trace ++
                   [.cmd (toL "git symbolic-ref HEAD") (.finished 0 out err)] }) := by
  have h1 := run_command_ok (toL "git symbolic-ref HEAD") true false true env s out err hdry hc
  rw [applyGitCmd_symref] at h1
  simp only [get_branch, hdry, Bool.false_eq_true, if_false, h1]
  simp [hsplit]

/-! ### C4: deriving the change id from a branch name -/

theorem get_change_id_from_branch_of_eq (branch : PyStr) :
    get_change_id_from_branch_of branch =
      if (toL "change-I").isPrefixOf branch then
        match unpack2 (pySplit '-' branch) with
        | .ok (_, change_id) => .ok (some change_id)
        | .error e => .error e
      else .ok none := rfl

theorem prefix_changeI_shift (X : PyStr) :
    (toL "change-I").isPrefixOf (toL "change-" ++ X) = (toL "I").isPrefixOf X := rfl

theorem append_changeDash (X : PyStr) :
    toL "change-" ++ X = toL "change" ++ '-' :: X := rfl

theorem branch_of_ok (X : PyStr) (hI : (toL "I").isPrefixOf X = true) (hd : '-' ∉ X) :
    get_change_id_from_branch_of (toL "change-" ++ X) = .ok (some X) := by
  have hpre : (toL "change-I").isPrefixOf (toL "change-" ++ X) = true := by
    rw [prefix_changeI_shift]; exact hI
  have hsplit : pySplit '-' (toL "change-" ++ X) = [toL "change", X] := by
    rw [append_changeDash, pySplit_append '-' (toL "change") X (by decide),
      pySplit_not_mem '-' X hd]
  rw [get_change_id_from_branch_of_eq, if_pos hpre, hsplit]
  rfl

theorem branch_of_none (branch : PyStr) (hn : (toL "change-I").isPrefixOf branch = false) :
    get_change_id_from_branch_of branch = .ok none := by
  rw [get_change_id_from_branch_of_eq, if_neg]
  simp [hn]

theorem branch_of_err (X : PyStr) (hI : (toL "I").isPrefixOf X = true) (hd : '-' ∈ X) :
    get_change_id_from_branch_of (toL "change-" ++ X) = .error .valueError := by
  have hpre : (toL "change-I").isPrefixOf (toL "change-" ++ X) = true := by
    rw [prefix_changeI_shift]; exact hI
  have hsplit : pySplit '-' (toL "change-" ++ X) = toL "change" :: pySplit '-' X := by
    rw [append_changeDash, pySplit_append '-' (toL "change") X (by decide)]
  have hlen : (pySplit '-' (toL "change-" ++ X)).length ≠ 2 := by
    rw [hsplit]
    have := pySplit_mem_length '-' X hd
    simp only [List.length_cons]
    omega
  rw [get_change_id_from_branch_of_eq, if_pos hpre,
    unpack2_of_length_ne_two _ hlen]

/-- C4 (amended): for every branch name `change-<id>` where the id begins
with `I` and contains no further dash, get_change_id_from_branch returns
exactly the id; for every branch name not starting with `change-I` it
returns none; and for a branch starting with `change-I` whose remainder
contains another dash, the two-name tuple unpacking raises ValueError
instead of returning. -/
theorem C4_theorem (X branch : PyStr) :
    ((toL "I").isPrefixOf X = true → '-' ∉ X →
      get_change_id_from_branch_of (toL "change-" ++ X) = .ok (some X)) ∧
    ((toL "change-I").isPrefixOf branch = false →
      get_change_id_from_branch_of branch = .ok none) ∧
    ((toL "I").isPrefixOf X = true → '-' ∈ X →
      get_change_id_from_branch_of (toL "change-" ++ X) = .error .valueError) :=
  ⟨fun hI hd => branch_of_ok X hI hd, fun hn => branch_of_none branch hn,
   fun hI hd => branch_of_err X hI hd⟩

/-- C4 counterexample: the branch name `change-Ia-b` is of the form
`change-<id>` with an id beginning with `I`, yet the function neither
returns the id nor returns none: the unpacking raises ValueError. -/
theorem C4_counterexample :
    get_change_id_from_branch_of (toL "change-Ia-b") = .error .valueError ∧
    get_change_id_from_branch_of (toL "change-Ia-b") ≠ .ok (some (toL "Ia-b")) ∧
    get_change_id_from_branch_of (toL "change-Ia-b") ≠ .ok none := by
  have h0 : get_change_id_from_branch_of (toL "change-Ia-b") = .error .valueError := rfl
  exact ⟨h0, fun h => Except.noConfusion (h0.symm.trans h),
    fun h => Except.noConfusion (h0.symm.trans h)⟩

theorem C4_witness :
    get_change_id_from_branch_of (toL "change-" ++ toL "Iabc123") = .ok (some (toL "Iabc123")) ∧
    get_change_id_from_branch_of (toL "master") = .ok none ∧
    get_change_id_from_branch_of (toL "change-" ++ toL "Ia-b") = .error .valueError :=
  ⟨(C4_theorem (toL "Iabc123") (toL "master")).1 (by decide) (by decide),
   (C4_theorem (toL "Iabc123") (toL "master")).2.1 (by decide),
   (C4_theorem (toL "Ia-b") (toL "master")).2.2 (by decide) (by decide)⟩

/-! ### C6: the push command is a pure function of its six inputs -/

/-- C6: build_push_command depends only on {remote, reviewers, cc, target
branch, topic, fake-push}: two flag records agreeing on those fields give
the same command for the same branch; and blank entries in the reviewer and
cc lists are excluded (filtering them away first does not change the
output). -/
theorem C6_theorem (f g : Flags) (b : PyStr)
    (h1 : f.remote = g.remote) (h2 : f.reviewers = g.reviewers) (h3 : f.cc = g.cc)
    (h4 : f.topic = g.topic) (h5 : f.fakePush = g.fakePush) :
    build_push_command f b = build_push_command g b ∧
    build_push_command f b =
      build_push_command
        { f with reviewers := f.reviewers.filter (fun r => r ≠ []),
                 cc := f.cc.filter (fun c => c ≠ []) } b := by
  constructor
  · simp only [build_push_command, h1, h2, h3, h4, h5]
  · simp only [build_push_command, List.filter_filter]
    simp

theorem C6_witness :
    (build_push_command flagsW (toL "master") = build_push_command flagsW (toL "master") ∧
      build_push_command flagsW (toL "master") =
        build_push_command
          { flagsW with reviewers := flagsW.reviewers.filter (fun r => r ≠ []),
                        cc := flagsW.cc.filter (fun c => c ≠ []) } (toL "master")) ∧
    build_push_command flagsW (toL "master") =
      toL "git push origin --receive-pack=\"git receive-pack --reviewer=alice --reviewer=bob --cc=carol\" HEAD:refs/for/master/topic1" :=
  ⟨C6_theorem flagsW flagsW (toL "master") rfl rfl rfl rfl rfl, by decide⟩

/-! ### C5: a directory owning an OWNERS file resolves there -/

theorem owners_iterDirname_succ (k : Nat) (d : PyStr) :
    iterDirname (k + 1) d = iterDirname k (pyDirname d) := rfl

theorem iterDirname_empty (j : Nat) : iterDirname j (toL "") = toL "" := by
  induction j with
  | zero => rfl
  | succ n ih => rw [owners_iterDirname_succ]; exact ih

/-- C5 (amended): when a directory `d` directly contains an owners file, the
walk resolves at `d`: the result is one entry per line of that file, each
stripped of surrounding whitespace (so blank lines contribute empty-string
entries rather than being dropped, and a zero-line file yields the empty
list), and no other directory is consulted — the result is unchanged under
any modification of the filesystem outside `d` and under any recursion
fuel. -/
theorem C5_theorem (fs fs' : FS) (d f : PyStr) (fuel fuel' : Nat)
    (hfuel : 0 < fuel) (hfuel' : 0 < fuel')
    (hfind : (fs.listdir d).find? (fun g => is_owners_file fs (posixJoin d g)) = some f)
    (hlist : fs'.listdir d = fs.listdir d)
    (hfile : ∀ g, is_owners_file fs' (posixJoin d g) = is_owners_file fs (posixJoin d g))
    (htext : fs'.fileText (posixJoin d f) = fs.fileText (posixJoin d f)) :
    get_owners_for_dir fs fuel d =
      some ((pyLines (fs.fileText (posixJoin d f))).map pyStrip) ∧
    get_owners_for_dir fs' fuel' d = get_owners_for_dir fs fuel d := by
  obtain ⟨n, rfl⟩ : ∃ n, fuel = n + 1 := ⟨fuel - 1, by omega⟩
  obtain ⟨m, rfl⟩ : ∃ m, fuel' = m + 1 := ⟨fuel' - 1, by omega⟩
  have e1 : get_owners_for_dir fs (n + 1) d =
      some ((pyLines (fs.fileText (posixJoin d f))).map pyStrip) := by
    unfold get_owners_for_dir
    rw [hfind]
  have hfind' : (fs'.listdir d).find? (fun g => is_owners_file fs' (posixJoin d g)) = some f := by
    have hfun : (fun g => is_owners_file fs' (posixJoin d g)) =
        (fun g => is_owners_file fs (posixJoin d g)) := funext hfile
    rw [hlist, hfun, hfind]
  have e2 : get_owners_for_dir fs' (m + 1) d =
      some ((pyLines (fs'.fileText (posixJoin d f))).map pyStrip) := by
    unfold get_owners_for_dir
    rw [hfind']
  refine ⟨e1, ?_⟩
  rw [e1, e2, htext]

/-- C5 counterexample: `/r/a` contains an OWNERS file whose text is one
blank line (zero non-blank lines).  The claim says the owner set is empty;
the code returns a one-element list holding the empty string.  Likewise a
file `alice\n\n` yields `[alice, ""]`, not `[alice]`. -/
theorem C5_counterexample :
    get_owners_for_dir fsC5 5 (toL "/r/a") = some [[]] ∧
    get_owners_for_dir fsC5 5 (toL "/r/a") ≠ some [] ∧
    get_owners_for_dir fsC5b 5 (toL "/r/a") = some [toL "alice", []] ∧
    get_owners_for_dir fsC5b 5 (toL "/r/a") ≠ some [toL "alice"] := by
  refine ⟨by decide, by decide, by decide, by decide⟩

theorem C5_witness :
    get_owners_for_dir fsC5b 7 (toL "/r/a") =
      some ((pyLines (fsC5b.fileText (posixJoin (toL "/r/a") (toL "OWNERS")))).map pyStrip) ∧
    get_owners_for_dir fsC5c 3 (toL "/r/a") = get_owners_for_dir fsC5b 7 (toL "/r/a") :=
  C5_theorem fsC5b fsC5c (toL "/r/a") (toL "OWNERS") 7 3 (by decide) (by decide)
    (by decide) (by decide) (fun g => rfl) (by decide)

/-! ### C10: termination of the upward owners walk -/

theorem owners_walk_terminates (fs : FS) :
    ∀ k d fuel, iterDirname k d = fs.root → k < fuel →
      get_owners_for_dir fs fuel d ≠ none := by
  intro k
  induction k with
  | zero =>
    intro d fuel hroot hfuel
    obtain ⟨n, rfl⟩ : ∃ n, fuel = n + 1 := ⟨fuel - 1, by omega⟩
    unfold get_owners_for_dir
    cases hf : (fs.listdir d).find? (fun g => is_owners_file fs (posixJoin d g)) with
    | some f => simp
    | none =>
      have hroot' : d = fs.root := hroot
      rw [if_pos hroot']
      simp
  | succ k ih =>
    intro d fuel hroot hfuel
    obtain ⟨n, rfl⟩ : ∃ n, fuel = n + 1 := ⟨fuel - 1, by omega⟩
    unfold get_owners_for_dir
    cases hf : (fs.listdir d).find? (fun g => is_owners_file fs (posixJoin d g)) with
    | some f => simp
    | none =>
      by_cases hr : d = fs.root
      · rw [if_pos hr]; simp
      · rw [if_neg hr]
        exact ih (pyDirname d) n hroot (by omega)

theorem owners_walk_empty (fs : FS) :
    ∀ k d fuel, iterDirname k d = fs.root → k < fuel →
      (∀ j, j ≤ k → (fs.listdir (iterDirname j d)).find?
          (fun g => is_owners_file fs (posixJoin (iterDirname j d) g)) = none) →
      get_owners_for_dir fs fuel d = some [] := by
  intro k
  induction k with
  | zero =>
    intro d fuel hroot hfuel hnone
    obtain ⟨n, rfl⟩ : ∃ n, fuel = n + 1 := ⟨fuel - 1, by omega⟩
    unfold get_owners_for_dir
    have h0 : (fs.listdir d).find? (fun g => is_owners_file fs (posixJoin d g)) = none :=
      hnone 0 (Nat.le_refl 0)
    have hroot' : d = fs.root := hroot
    rw [h0, if_pos hroot']
  | succ k ih =>
    intro d fuel hroot hfuel hnone
    obtain ⟨n, rfl⟩ : ∃ n, fuel = n + 1 := ⟨fuel - 1, by omega⟩
    unfold get_owners_for_dir
    have h0 : (fs.listdir d).find? (fun g => is_owners_file fs (posixJoin d g)) = none :=
      hnone 0 (Nat.zero_le _)
    rw [h0]
    by_cases hr : d = fs.root
    · rw [if_pos hr]
    · rw [if_neg hr]
      exact ih (pyDirname d) n hroot (by omega)
        (fun j hj => hnone (j + 1) (by omega))

theorem owners_walk_diverges (fs : FS) :
    ∀ fuel d, (∀ j, iterDirname j d ≠ fs.root) →
      (∀ j, (fs.listdir (iterDirname j d)).find?
          (fun g => is_owners_file fs (posixJoin (iterDirname j d) g)) = none) →
      get_owners_for_dir fs fuel d = none := by
  intro fuel
  induction fuel with
  | zero => intro d h1 h2; rfl
  | succ n ih =>
    intro d h1 h2
    unfold get_owners_for_dir
    have h0 : (fs.listdir d).find? (fun g => is_owners_file fs (posixJoin d g)) = none := h2 0
    have hr : ¬ d = fs.root := h1 0
    rw [h0, if_neg hr]
    exact ih (pyDirname d) (fun j => h1 (j + 1)) (fun j => h2 (j + 1))

/-- C10: the upward walk terminates exactly on the directories whose
iterated-dirname chain reaches a string equal to the repository root: with
enough fuel the walk yields a result (and yields the empty owner set when no
owners file is met along the chain); and for a start directory whose chain
never becomes string-equal to the root and never meets an owners file, the
walk never stops, exhausting every fuel bound. -/
theorem C10_theorem (fs : FS) (d : PyStr) (k fuel : Nat) :
    (iterDirname k d = fs.root → k < fuel → get_owners_for_dir fs fuel d ≠ none) ∧
    (iterDirname k d = fs.root → k < fuel →
      (∀ j, j ≤ k → (fs.listdir (iterDirname j d)).find?
          (fun g => is_owners_file fs (posixJoin (iterDirname j d) g)) = none) →
      get_owners_for_dir fs fuel d = some []) ∧
    ((∀ j, iterDirname j d ≠ fs.root) →
      (∀ j, (fs.listdir (iterDirname j d)).find?
          (fun g => is_owners_file fs (posixJoin (iterDirname j d) g)) = none) →
      get_owners_for_dir fs fuel d = none) :=
  ⟨fun h1 h2 => owners_walk_terminates fs k d fuel h1 h2,
   fun h1 h2 h3 => owners_walk_empty fs k d fuel h1 h2 h3,
   fun h1 h2 => owners_walk_diverges fs fuel d h1 h2⟩

theorem C10_witness :
    get_owners_for_dir fsC10 5 (toL "/r/a/b") = some [] ∧
    get_owners_for_dir fsC10 9 (toL "relative") = none := by
  constructor
  · exact (C10_theorem fsC10 (toL "/r/a/b") 2 5).2.1 (by decide) (by decide)
      (fun j hj => rfl)
  · refine (C10_theorem fsC10 (toL "relative") 0 9).2.2 ?_ (fun j => rfl)
    intro j
    match j with
    | 0 => decide
    | j + 1 =>
      have h1 : iterDirname (j + 1) (toL "relative") = iterDirname j (toL "") := rfl
      rw [h1, iterDirname_empty]
      decide

/-! ### C9: partitioning the Gerrit query response -/

theorem parseAll_nil (parse : PyStr → Option JObj) : parseAll parse [] = some [] := rfl

theorem parseAll_cons (parse : PyStr → Option JObj) (l : PyStr) (rest : List PyStr) :
    parseAll parse (l :: rest) =
      match parse l, parseAll parse rest with
      | some r, some rs => some (r :: rs)
      | _, _ => none := rfl

theorem gerrit_loop_nil (parse : PyStr → Option JObj) (results : List JObj)
    (stats : Option JObj) : gerrit_loop parse [] results stats = .ok (results, stats) := rfl

theorem gerrit_loop_cons (parse : PyStr → Option JObj) (l : PyStr) (rest : List PyStr)
    (results : List JObj) (stats : Option JObj) :
    gerrit_loop parse (l :: rest) results stats =
      if l = [] then gerrit_loop parse rest results stats
      else
        match parse l with
        | none => .error .valueError
        | some r =>
          if isStatsRecord r then gerrit_loop parse rest results (some r)
          else gerrit_loop parse rest (results ++ [r]) stats := rfl

theorem gerrit_loop_spec (parse : PyStr → Option JObj) :
    ∀ (lines : List PyStr) (recs acc : List JObj) (st0 : Option JObj),
      parseAll parse (lines.filter (fun l => l ≠ [])) = some recs →
      gerrit_loop parse lines acc st0 =
        .ok (acc ++ recs.filter (fun r => !isStatsRecord r),
          (recs.filter (fun r => isStatsRecord r)).foldl (fun _ r => some r) st0) := by
  intro lines
  induction lines with
  | nil =>
    intro recs acc st0 h
    rw [List.filter_nil, parseAll_nil] at h
    obtain rfl : ([] : List JObj) = recs := Option.some.inj h
    rw [gerrit_loop_nil]
    simp
  | cons l rest ih =>
    intro recs acc st0 h
    by_cases hl : l = []
    · subst hl
      have h' : parseAll parse (rest.filter (fun l => l ≠ [])) = some recs := by
        simpa using h
      have hstep : gerrit_loop parse ([] :: rest) acc st0 =
          gerrit_loop parse rest acc st0 := rfl
      rw [hstep]
      exact ih recs acc st0 h'
    · have hcons : parseAll parse (l :: rest.filter (fun l => l ≠ [])) = some recs := by
        rw [List.filter_cons] at h
        simpa [hl] using h
      rw [parseAll_cons] at hcons
      cases hp : parse l with
      | none =>
        rw [hp] at hcons
        simp at hcons
      | some r =>
        rw [hp] at hcons
        cases hm : parseAll parse (rest.filter (fun l => l ≠ [])) with
        | none =>
          rw [hm] at hcons
          simp at hcons
        | some rs =>
          rw [hm] at hcons
          obtain rfl : recs = r :: rs := (Option.some.inj hcons).symm
          rw [gerrit_loop_cons, if_neg hl, hp]
          show (if isStatsRecord r = true then gerrit_loop parse rest acc (some r)
            else gerrit_loop parse rest (acc ++ [r]) st0) = _
          by_cases hst : isStatsRecord r = true
          · rw [if_pos hst, ih rs acc (some r) hm]
            simp [List.filter_cons, hst]
          · rw [if_neg hst, ih rs (acc ++ [r]) st0 hm]
            simp [List.filter_cons, hst, List.append_assoc, Bool.not_eq_true]

/-- C9: for every newline-delimited response whose non-empty lines all
parse, and in which exactly one parsed record has `type = "stats"`, the
search response is partitioned into that single stats record and all other
records in arrival order; empty lines contribute nothing. -/
theorem C9_theorem (parse : PyStr → Option JObj) (response : PyStr)
    (lines : List PyStr) (recs : List JObj) (st : JObj)
    (hsplit : pySplit '\n' response = lines)
    (hp : parseAll parse (lines.filter (fun l => l ≠ [])) = some recs)
    (hstats : recs.filter (fun r => isStatsRecord r) = [st]) :
    parse_gerrit_response parse response =
      .ok (recs.filter (fun r => !isStatsRecord r), some st) := by
  unfold parse_gerrit_response
  rw [hsplit, gerrit_loop_spec parse lines recs [] none hp, hstats]
  simp

theorem C9_witness :
    parse_gerrit_response parseW responseW =
      .ok ([recW1, recW2, recWs].filter (fun r => !isStatsRecord r), some recWs) :=
  C9_theorem parseW responseW [toL "r1", [], toL "r2", toL "st", []]
    [recW1, recW2, recWs] recWs (by decide) (by decide) (by decide)

/-! ### C1: the branch/commit Change-Id invariant -/

theorem head_of_found (headOut X : PyStr)
    (hfound : (pySplit '\n' headOut).find?
        (fun line => (toL "Change-Id:").isPrefixOf line) = some (toL "Change-Id: " ++ X))
    (hXc : ':' ∉ X) :
    get_change_id_from_head_of headOut = .ok (some (pyStrip (' ' :: X))) := by
  have e : toL "Change-Id: " ++ X = toL "Change-Id" ++ ':' :: (' ' :: X) := rfl
  have hsp : pySplit ':' (toL "Change-Id: " ++ X) = [toL "Change-Id", ' ' :: X] := by
    rw [e, pySplit_append ':' (toL "Change-Id") _ (by decide),
      pySplit_not_mem ':' (' ' :: X) (by simp [hXc])]
  unfold get_change_id_from_head_of
  rw [hfound]
  show (match unpack2 (pySplit ':' (toL "Change-Id: " ++ X)) with
    | .ok (_, change_id) => (Except.ok (some (pyStrip change_id)) : Except PyExc (Option PyStr))
    | .error e => Except.error e) = _
  rw [hsp]
  rfl

theorem head_of_missing (headOut : PyStr)
    (hnone : (pySplit '\n' headOut).find?
        (fun line => (toL "Change-Id:").isPrefixOf line) = none) :
    get_change_id_from_head_of headOut = .ok none := by
  unfold get_change_id_from_head_of
  rw [hnone]

theorem get_change_id_from_branch_eval (env : PEnv) (s : PSt) (out err p1 p2 p3 : PyStr)
    (hdry : env.flags.dryRun = false)
    (hc : env.cmds s.cmdIdx = .finished 0 out err)
    (hsplit : pySplit '/' out = [p1, p2, p3]) :
    get_change_id_from_branch env s =
      (get_change_id_from_branch_of (pyStrip p3),
        { s with cmdIdx := s.cmdIdx + 1,
                 trace := s.trace ++
                   [.cmd (toL "git symbolic-ref HEAD") (.finished 0 out err)] }) := by
  unfold get_change_id_from_branch
  rw [M_bind_def, get_branch_ok env s out err p1 p2 p3 hdry hc hsplit]
  rfl

theorem get_change_id_from_head_eval (env : PEnv) (s : PSt) (out err : PyStr)
    (hdry : env.flags.dryRun = false)
    (hc : env.cmds s.cmdIdx = .finished 0 out err) :
    get_change_id_from_head env s =
      (get_change_id_from_head_of out,
        { s with cmdIdx := s.cmdIdx + 1,
                 trace := s.trace ++
                   [.cmd (toL "git cat-file -p HEAD") (.finished 0 out err)] }) := by
  unfold get_change_id_from_head
  rw [M_bind_def, run_command_ok (toL "git cat-file -p HEAD") true false true env s out err
    hdry hc, applyGitCmd_catfile]
  rfl

theorem check_for_change_branch_ok (env : PEnv) (s : PSt)
    (refOut e1 p1 p2 p3 X headOut e2 : PyStr)
    (hdry : env.flags.dryRun = false)
    (hc0 : env.cmds s.cmdIdx = .finished 0 refOut e1)
    (hsplit : pySplit '/' refOut = [p1, p2, p3])
    (hbranch : pyStrip p3 = toL "change-" ++ X)
    (hX : (toL "I").isPrefixOf X = true) (hXd : '-' ∉ X)
    (hc1 : env.cmds (s.cmdIdx + 1) = .finished 0 headOut e2)
    (hfound : (pySplit '\n' headOut).find?
        (fun line => (toL "Change-Id:").isPrefixOf line) = some (toL "Change-Id: " ++ X))
    (hXc : ':' ∉ X) (hXs : pyStrip (' ' :: X) = X) :
    check_for_change_branch env s =
      (.ok X,
        { s with cmdIdx := s.cmdIdx + 1 + 1,
                 trace := s.trace ++
                   [.cmd (toL "git symbolic-ref HEAD") (.finished 0 refOut e1),
                    .cmd (toL "git cat-file -p HEAD") (.finished 0 headOut e2)] }) := by
  have ev1 := get_change_id_from_branch_eval env s refOut e1 p1 p2 p3 hdry hc0 hsplit
  rw [hbranch, branch_of_ok X hX hXd] at ev1
  unfold check_for_change_branch
  rw [M_bind_def, ev1]
  have ev2 := get_change_id_from_head_eval env
    { s with cmdIdx := s.cmdIdx + 1,
             trace := s.trace ++
               [.cmd (toL "git symbolic-ref HEAD") (.finished 0 refOut e1)] }
    headOut e2 hdry hc1
  rw [head_of_found headOut X hfound hXc, hXs] at ev2
  simp only [M_bind_def, ev2]
  simp [M_pure_def, List.append_assoc]

theorem exit_error_eval (message pre : PyStr) (status : Int) (env : PEnv) (s : PSt) :
    exit_error message pre status env s =
      (.error (.systemExit status),
        { s with trace := s.trace ++ [.echoErr (pre ++ message ++ toL "\n"),
            .exited status] }) := rfl

theorem check_for_change_branch_missing (env : PEnv) (s : PSt)
    (refOut e1 p1 p2 p3 X headOut e2 : PyStr)
    (hdry : env.flags.dryRun = false)
    (hc0 : env.cmds s.cmdIdx = .finished 0 refOut e1)
    (hsplit : pySplit '/' refOut = [p1, p2, p3])
    (hbranch : pyStrip p3 = toL "change-" ++ X)
    (hX : (toL "I").isPrefixOf X = true) (hXd : '-' ∉ X)
    (hc1 : env.cmds (s.cmdIdx + 1) = .finished 0 headOut e2)
    (hnone : (pySplit '\n' headOut).find?
        (fun line => (toL "Change-Id:").isPrefixOf line) = none) :
    check_for_change_branch env s =
      (.error (.systemExit 1),
        { s with cmdIdx := s.cmdIdx + 1 + 1,
                 trace := s.trace ++
                   [.cmd (toL "git symbolic-ref HEAD") (.finished 0 refOut e1),
                    .cmd (toL "git cat-file -p HEAD") (.finished 0 headOut e2),
                    .echoErr (toL "Error: " ++
                      toL "The commit message at HEAD does not contain a valid change ID header." ++
                      toL "\n"),
                    .exited 1] }) := by
  have ev1 := get_change_id_from_branch_eval env s refOut e1 p1 p2 p3 hdry hc0 hsplit
  rw [hbranch, branch_of_ok X hX hXd] at ev1
  unfold check_for_change_branch
  rw [M_bind_def, ev1]
  have ev2 := get_change_id_from_head_eval env
    { s with cmdIdx := s.cmdIdx + 1,
             trace := s.trace ++
               [.cmd (toL "git symbolic-ref HEAD") (.finished 0 refOut e1)] }
    headOut e2 hdry hc1
  rw [head_of_missing headOut hnone] at ev2
  simp only [M_bind_def, ev2]
  simp [M_bind_def, M_pure_def, exit_error_eval, List.append_assoc]

theorem check_for_change_branch_mismatch (env : PEnv) (s : PSt)
    (refOut e1 p1 p2 p3 X Y headOut e2 : PyStr)
    (hdry : env.flags.dryRun = false)
    (hc0 : env.cmds s.cmdIdx = .finished 0 refOut e1)
    (hsplit : pySplit '/' refOut = [p1, p2, p3])
    (hbranch : pyStrip p3 = toL "change-" ++ X)
    (hX : (toL "I").isPrefixOf X = true) (hXd : '-' ∉ X)
    (hc1 : env.cmds (s.cmdIdx + 1) = .finished 0 headOut e2)
    (hfound : (pySplit '\n' headOut).find?
        (fun line => (toL "Change-Id:").isPrefixOf line) = some (toL "Change-Id: " ++ Y))
    (hYc : ':' ∉ Y) (hYs : pyStrip (' ' :: Y) = Y) (hYX : Y ≠ X) :
    check_for_change_branch env s =
      (.error (.systemExit 1),
        { s with cmdIdx := s.cmdIdx + 1 + 1,
                 trace := s.trace ++
                   [.cmd (toL "git symbolic-ref HEAD") (.finished 0 refOut e1),
                    .cmd (toL "git cat-file -p HEAD") (.finished 0 headOut e2),
                    .echoErr (toL "Error: " ++
                      (toL "The change ID in the commit message at HEAD (" ++ Y ++
                        toL ")\ndoes not match the change ID embedded in the branch name (" ++
                        X ++ toL ").") ++
                      toL "\n"),
                    .exited 1] }) := by
  have ev1 := get_change_id_from_branch_eval env s refOut e1 p1 p2 p3 hdry hc0 hsplit
  rw [hbranch, branch_of_ok X hX hXd] at ev1
  unfold check_for_change_branch
  rw [M_bind_def, ev1]
  have ev2 := get_change_id_from_head_eval env
    { s with cmdIdx := s.cmdIdx + 1,
             trace := s.trace ++
               [.cmd (toL "git symbolic-ref HEAD") (.finished 0 refOut e1)] }
    headOut e2 hdry hc1
  rw [head_of_found headOut Y hfound hYc, hYs] at ev2
  simp only [M_bind_def, ev2]
  simp [M_bind_def, M_pure_def, exit_error_eval, List.append_assoc, hYX]

/-- C1: for a run whose current branch is `change-<X>`, the change-branch
check returns X exactly when the first `Change-Id:` line of the HEAD commit
message carries the value X, performing only the two read commands; when the
HEAD message has no `Change-Id:` line, or its value differs from X, the
operation writes an error and exits with status 1 immediately after the two
read commands, before any further subprocess, prompt or print step. -/
theorem C1_theorem (env : PEnv) (s : PSt) (refOut e1 p1 p2 p3 X Y headOut e2 : PyStr)
    (hdry : env.flags.dryRun = false)
    (hc0 : env.cmds s.cmdIdx = .finished 0 refOut e1)
    (hsplit : pySplit '/' refOut = [p1, p2, p3])
    (hbranch : pyStrip p3 = toL "change-" ++ X)
    (hX : (toL "I").isPrefixOf X = true) (hXd : '-' ∉ X)
    (hc1 : env.cmds (s.cmdIdx + 1) = .finished 0 headOut e2) :
    (((pySplit '\n' headOut).find?
        (fun line => (toL "Change-Id:").isPrefixOf line) = some (toL "Change-Id: " ++ X) →
      ':' ∉ X → pyStrip (' ' :: X) = X →
      check_for_change_branch env s =
        (.ok X,
          { s with cmdIdx := s.cmdIdx + 1 + 1,
                   trace := s.trace ++
                     [.cmd (toL "git symbolic-ref HEAD") (.finished 0 refOut e1),
                      .cmd (toL "git cat-file -p HEAD") (.finished 0 headOut e2)] }))) ∧
    (((pySplit '\n' headOut).find?
        (fun line => (toL "Change-Id:").isPrefixOf line) = none →
      check_for_change_branch env s =
        (.error (.systemExit 1),
          { s with cmdIdx := s.cmdIdx + 1 + 1,
                   trace := s.trace ++
                     [.cmd (toL "git symbolic-ref HEAD") (.finished 0 refOut e1),
                      .cmd (toL "git cat-file -p HEAD") (.finished 0 headOut e2),
                      .echoErr (toL "Error: " ++
                        toL "The commit message at HEAD does not contain a valid change ID header." ++
                        toL "\n"),
                      .exited 1] }))) ∧
    (((pySplit '\n' headOut).find?
        (fun line => (toL "Change-Id:").isPrefixOf line) = some (toL "Change-Id: " ++ Y) →
      ':' ∉ Y → pyStrip (' ' :: Y) = Y → Y ≠ X →
      check_for_change_branch env s =
        (.error (.systemExit 1),
          { s with cmdIdx := s.cmdIdx + 1 + 1,
                   trace := s.trace ++
                     [.cmd (toL "git symbolic-ref HEAD") (.finished 0 refOut e1),
                      .cmd (toL "git cat-file -p HEAD") (.finished 0 headOut e2),
                      .echoErr (toL "Error: " ++
                        (toL "The change ID in the commit message at HEAD (" ++ Y ++
                          toL ")\ndoes not match the change ID embedded in the branch name (" ++
                          X ++ toL ").") ++
                        toL "\n"),
                      .exited 1] }))) :=
  ⟨fun hfound hXc hXs => check_for_change_branch_ok env s refOut e1 p1 p2 p3 X headOut e2
      hdry hc0 hsplit hbranch hX hXd hc1 hfound hXc hXs,
   fun hnone => check_for_change_branch_missing env s refOut e1 p1 p2 p3 X headOut e2
      hdry hc0 hsplit hbranch hX hXd hc1 hnone,
   fun hfound hYc hYs hYX => check_for_change_branch_mismatch env s refOut e1 p1 p2 p3 X Y
      headOut e2 hdry hc0 hsplit hbranch hX hXd hc1 hfound hYc hYs hYX⟩

theorem C1_witness :
    check_for_change_branch envC1a stW =
      (.ok (toL "Iabc"),
        { stW with cmdIdx := stW.cmdIdx + 1 + 1,
                   trace := stW.trace ++
                     [.cmd (toL "git symbolic-ref HEAD")
                        (.finished 0 (toL "refs/heads/change-Iabc\n") []),
                      .cmd (toL "git cat-file -p HEAD")
                        (.finished 0 (toL "tree 123\nChange-Id: Iabc\n") [])] }) ∧
    check_for_change_branch envC1b stW =
      (.error (.systemExit 1),
        { stW with cmdIdx := stW.cmdIdx + 1 + 1,
                   trace := stW.trace ++
                     [.cmd (toL "git symbolic-ref HEAD")
                        (.finished 0 (toL "refs/heads/change-Iabc\n") []),
                      .cmd (toL "git cat-file -p HEAD")
                        (.finished 0 (toL "tree 123\nauthor a\n") []),
                      .echoErr (toL "Error: " ++
                        toL "The commit message at HEAD does not contain a valid change ID header." ++
                        toL "\n"),
                      .exited 1] }) ∧
    check_for_change_branch envC1c stW =
      (.error (.systemExit 1),
        { stW with cmdIdx := stW.cmdIdx + 1 + 1,
                   trace := stW.trace ++
                     [.cmd (toL "git symbolic-ref HEAD")
                        (.finished 0 (toL "refs/heads/change-Iabc\n") []),
                      .cmd (toL "git cat-file -p HEAD")
                        (.finished 0 (toL "tree 123\nChange-Id: Ixyz999\n") []),
                      .echoErr (toL "Error: " ++
                        (toL "The change ID in the commit message at HEAD (" ++ toL "Ixyz999" ++
                          toL ")\ndoes not match the change ID embedded in the branch name (" ++
                          toL "Iabc" ++ toL ").") ++
                        toL "\n"),
                      .exited 1] }) :=
  ⟨(C1_theorem envC1a stW (toL "refs/heads/change-Iabc\n") [] (toL "refs") (toL "heads")
      (toL "change-Iabc\n") (toL "Iabc") (toL "Iabc") (toL "tree 123\nChange-Id: Iabc\n") []
      rfl rfl (by decide) (by decide) (by decide) (by decide) rfl).1
    (by decide) (by decide) (by decide),
   (C1_theorem envC1b stW (toL "refs/heads/change-Iabc\n") [] (toL "refs") (toL "heads")
      (toL "change-Iabc\n") (toL "Iabc") (toL "Iabc") (toL "tree 123\nauthor a\n") []
      rfl rfl (by decide) (by decide) (by decide) (by decide) rfl).2.1
    (by decide),
   (C1_theorem envC1c stW (toL "refs/heads/change-Iabc\n") [] (toL "refs") (toL "heads")
      (toL "change-Iabc\n") (toL "Iabc") (toL "Ixyz999") (toL "tree 123\nChange-Id: Ixyz999\n") []
      rfl rfl (by decide) (by decide) (by decide) (by decide) rfl).2.2
    (by decide) (by decide) (by decide) (by decide)⟩

/-! ### C7: update never pushes to a closed change -/

theorem applyGitCmd_ssh (host query : PyStr) (s : PSt) :
    applyGitCmd (toL "ssh " ++ host ++ toL " gerrit query --format=JSON " ++ query) s = s := by
  have e : toL "ssh " ++ host ++ toL " gerrit query --format=JSON " ++ query =
      toL "ssh" ++ ' ' :: ((host ++ toL " gerrit query --format=JSON ") ++ query) := rfl
  have hx : pySplit ' ' (toL "ssh " ++ host ++ toL " gerrit query --format=JSON " ++ query) =
      toL "ssh" :: pySplit ' ' ((host ++ toL " gerrit query --format=JSON ") ++ query) := by
    rw [e, pySplit_append ' ' (toL "ssh") _ (by decide)]
  exact applyGitCmd_of_head_ne _ s (toL "ssh") _ hx (by decide)

theorem search_gerrit_eval (query : PyStr) (env : PEnv) (s : PSt) (out err : PyStr)
    (hdry : env.flags.dryRun = false)
    (hc : env.cmds s.cmdIdx = .finished 0 out err) :
    search_gerrit query env s =
      (parse_gerrit_response env.parse out,
        { s with cmdIdx := s.cmdIdx + 1,
                 trace := s.trace ++
                   [.cmd (toL "ssh " ++ env.flags.gerritSshHost ++
                     toL " gerrit query --format=JSON " ++ query) (.finished 0 out err)] }) := by
  unfold search_gerrit
  rw [run_command_ok _ _ _ _ _ _ _ _ hdry hc, applyGitCmd_ssh]
  rfl

theorem get_change_eval_one (change_id : PyStr) (env : PEnv) (s : PSt)
    (out err : PyStr) (rec : JObj) (stats : Option JObj)
    (hdry : env.flags.dryRun = false)
    (hc : env.cmds s.cmdIdx = .finished 0 out err)
    (hparse : parse_gerrit_response env.parse out = .ok ([rec], stats)) :
    get_change change_id env s =
      (.ok rec,
        { s with cmdIdx := s.cmdIdx + 1,
                 trace := s.trace ++
                   [.cmd (toL "ssh " ++ env.flags.gerritSshHost ++
                     toL " gerrit query --format=JSON " ++ (toL "change:" ++ change_id))
                     (.finished 0 out err)] }) := by
  unfold get_change
  rw [M_bind_def, search_gerrit_eval (toL "change:" ++ change_id) env s out err hdry hc, hparse]
  simp [M_pure_def]

theorem jIndex_eval (r : JObj) (k : PyStr) (v : JVal) (env : PEnv) (s : PSt)
    (h : List.lookup k r = some v) : jIndex r k env s = (.ok v, s) := by
  unfold jIndex
  rw [h]
  rfl

/-- C7: when the current branch is a valid change branch for id X and the
Gerrit record resolved for X has a falsy `open` field, update_change writes
the not-open error and exits with status 1 directly after the three read
commands (symbolic-ref, cat-file, gerrit query): no amend (git commit) and
no push command is ever issued. -/
theorem C7_theorem (env : PEnv) (s : PSt)
    (refOut e1 p1 p2 p3 X headOut e2 sshOut e3 : PyStr) (rec : JObj) (stats : Option JObj)
    (openV : JVal)
    (hdry : env.flags.dryRun = false)
    (hc0 : env.cmds s.cmdIdx = .finished 0 refOut e1)
    (hsplit : pySplit '/' refOut = [p1, p2, p3])
    (hbranch : pyStrip p3 = toL "change-" ++ X)
    (hX : (toL "I").isPrefixOf X = true) (hXd : '-' ∉ X)
    (hc1 : env.cmds (s.cmdIdx + 1) = .finished 0 headOut e2)
    (hfound : (pySplit '\n' headOut).find?
        (fun line => (toL "Change-Id:").isPrefixOf line) = some (toL "Change-Id: " ++ X))
    (hXc : ':' ∉ X) (hXs : pyStrip (' ' :: X) = X)
    (hc2 : env.cmds (s.cmdIdx + 1 + 1) = .finished 0 sshOut e3)
    (hparse : parse_gerrit_response env.parse sshOut = .ok ([rec], stats))
    (hopen : List.lookup (toL "open") rec = some openV)
    (hfalse : pyTruthy openV = false) :
    update_change env s =
      (.error (.systemExit 1),
        { s with cmdIdx := s.cmdIdx + 1 + 1 + 1,
                 trace := s.trace ++
                   [.cmd (toL "git symbolic-ref HEAD") (.finished 0 refOut e1),
                    .cmd (toL "git cat-file -p HEAD") (.finished 0 headOut e2),
                    .cmd (toL "ssh " ++ env.flags.gerritSshHost ++
                      toL " gerrit query --format=JSON " ++ (toL "change:" ++ X))
                      (.finished 0 sshOut e3),
                    .echoErr (toL "Error: " ++
                      (toL "Change " ++ X ++ toL " is no longer open.") ++ toL "\n"),
                    .exited 1] }) := by
  have ev1 := check_for_change_branch_ok env s refOut e1 p1 p2 p3 X headOut e2
    hdry hc0 hsplit hbranch hX hXd hc1 hfound hXc hXs
  unfold update_change
  rw [M_bind_def, ev1]
  have ev2 := get_change_eval_one X env
    { s with cmdIdx := s.cmdIdx + 1 + 1,
             trace := s.trace ++
               [.cmd (toL "git symbolic-ref HEAD") (.finished 0 refOut e1),
                .cmd (toL "git cat-file -p HEAD") (.finished 0 headOut e2)] }
    sshOut e3 rec stats hdry hc2 hparse
  simp only [M_bind_def, ev2]
  have ev3 : ∀ (env' : PEnv) (s' : PSt), jIndex rec (toL "open") env' s' = (.ok openV, s') :=
    fun env' s' => jIndex_eval rec (toL "open") openV env' s' hopen
  simp only [M_bind_def, ev3]
  simp [M_bind_def, M_pure_def, exit_error_eval, hfalse, List.append_assoc]

theorem C7_witness :
    update_change envC7 stW =
      (.error (.systemExit 1),
        { stW with cmdIdx := stW.cmdIdx + 1 + 1 + 1,
                   trace := stW.trace ++
                     [.cmd (toL "git symbolic-ref HEAD")
                        (.finished 0 (toL "refs/heads/change-Iabc\n") []),
                      .cmd (toL "git cat-file -p HEAD")
                        (.finished 0 (toL "tree 123\nChange-Id: Iabc\n") []),
                      .cmd (toL "ssh " ++ envC7.flags.gerritSshHost ++
                        toL " gerrit query --format=JSON " ++ (toL "change:" ++ toL "Iabc"))
                        (.finished 0 (toL "chrec\nst\n") []),
                      .echoErr (toL "Error: " ++
                        (toL "Change " ++ toL "Iabc" ++ toL " is no longer open.") ++ toL "\n"),
                      .exited 1] }) :=
  C7_theorem envC7 stW (toL "refs/heads/change-Iabc\n") [] (toL "refs") (toL "heads")
    (toL "change-Iabc\n") (toL "Iabc") (toL "tree 123\nChange-Id: Iabc\n") []
    (toL "chrec\nst\n") [] recC7 (some recWs) (.bool false)
    rfl rfl (by decide) (by decide) (by decide) (by decide) rfl (by decide) (by decide)
    (by decide) rfl rfl (by decide) rfl

/-! ### C8: the branch-selection menu of the list operation -/

/-- C8 (behaviour at the failing input and around it): with two listed
change branches, the numeric input `0` is outside the menu range 1..2, yet
the code runs `git checkout change-I2` — Python `branches[int('0') - 1]` is
`branches[-1]`, the last branch — instead of reporting an invalid
selection; blank input exits silently after the three read commands with no
checkout (the command counter stays at 3 and the current branch is
unchanged); the out-of-range number `5` and the non-numeric text `xy` print
`Not a valid selection` and return normally with no checkout. -/
theorem C8_theorem :
    (list_change_branches envC8 stW).1 = .ok () ∧
    (list_change_branches envC8 stW).2.current = toL "change-I2" ∧
    .cmd (toL "git checkout " ++ toL "change-I2") (.finished 0 [] [])
      ∈ (list_change_branches envC8 stW).2.trace ∧
    (list_change_branches envC8blank stW).1 = .ok () ∧
    (list_change_branches envC8blank stW).2.cmdIdx = 3 ∧
    (list_change_branches envC8blank stW).2.current = stW.current ∧
    (list_change_branches envC8five stW).1 = .ok () ∧
    (list_change_branches envC8five stW).2.cmdIdx = 3 ∧
    .echo (toL "Not a valid selection") ∈ (list_change_branches envC8five stW).2.trace ∧
    (list_change_branches envC8five stW).2.current = stW.current ∧
    (list_change_branches envC8text stW).1 = .ok () ∧
    (list_change_branches envC8text stW).2.cmdIdx = 3 ∧
    .echo (toL "Not a valid selection") ∈ (list_change_branches envC8text stW).2.trace ∧
    (list_change_branches envC8text stW).2.current = stW.current := by
  refine ⟨rfl, by decide, by decide, rfl, by decide, by decide, rfl, by decide, by decide,
    by decide, rfl, by decide, by decide, by decide⟩

/-! ### Branch-set preservation lemmas for the create lifecycle -/

theorem M_bind_branches {α β : Type} (X : M α) (f : α → M β)
    (hX : ∀ env s, ((X env s).2).branches = s.branches)
    (hf : ∀ a env s, ((f a env s).2).branches = s.branches) :
    ∀ env s, (((X >>= f) env s).2).branches = s.branches := by
  intro env s
  rw [M_bind_def]
  cases hx : X env s with
  | mk r s' =>
    have hs' : s'.branches = s.branches := by
      have := hX env s
      rw [hx] at this
      exact this
    cases r with
    | ok a =>
      have := hf a env s'
      simp only [this, hs']
    | error e => simpa using hs'

theorem M_pure_branches {α : Type} (a : α) :
    ∀ env s, (((pure a : M α) env s).2).branches = s.branches := fun _ _ => rfl

theorem emit_branches (st : Step) :
    ∀ env s, ((emit st env s).2).branches = s.branches := fun _ _ => rfl

theorem pyPrint_branches (m : PyStr) :
    ∀ env s, ((pyPrint m env s).2).branches = s.branches := fun _ _ => rfl

theorem exit_error_branches (m p : PyStr) (c : Int) :
    ∀ env s, ((exit_error m p c env s).2).branches = s.branches := fun _ _ => rfl

theorem sysExit_branches (c : Int) :
    ∀ env s, ((sysExit c env s).2).branches = s.branches := fun _ _ => rfl

theorem liftExc_branches {α : Type} (x : Except PyExc α) :
    ∀ env s, ((liftExc x env s).2).branches = s.branches := fun _ _ => rfl

theorem readFlags_branches :
    ∀ env s, ((readFlags env s).2).branches = s.branches := fun _ _ => rfl

theorem readTimestamp_branches :
    ∀ env s, ((readTimestamp env s).2).branches = s.branches := fun _ _ => rfl

theorem raw_input_branches (m : PyStr) :
    ∀ env s, ((raw_input m env s).2).branches = s.branches := by
  intro env s
  unfold raw_input
  cases env.inputs s.inIdx <;> rfl

theorem run_command_branches (command : PyStr)
    (hnoop : ∀ st : PSt, (applyGitCmd command st).branches = st.branches)
    (ts te oe : Bool) :
    ∀ env s, ((run_command command ts te oe env s).2).branches = s.branches := by
  intro env s
  unfold run_command
  split
  · rfl
  · split
    · rfl
    · split
      · exact hnoop _
      · rfl

theorem run_command_shell_branches (command : PyStr) :
    ∀ env s, ((run_command_shell command env s).2).branches = s.branches := by
  intro env s
  unfold run_command_shell
  split
  · rfl
  · split
    · rfl
    · split
      · rfl
      · rfl

theorem run_command_or_die_branches (command : PyStr)
    (hnoop : ∀ st : PSt, (applyGitCmd command st).branches = st.branches) :
    ∀ env s, ((run_command_or_die command env s).2).branches = s.branches := by
  intro env s
  unfold run_command_or_die
  have h := run_command_branches command hnoop true true false env s
  cases hx : run_command command true true false env s with
  | mk r s' =>
    rw [hx] at h
    cases r with
    | ok out => simpa using h
    | error e =>
      cases e <;> simpa using h

theorem get_branch_branches :
    ∀ env s, ((get_branch env s).2).branches = s.branches := by
  intro env s
  unfold get_branch
  split
  · rfl
  · have h := run_command_branches (toL "git symbolic-ref HEAD")
      (fun st => by rw [applyGitCmd_symref]) true false true env s
    split
    next output s' heq =>
      rw [heq] at h
      split <;> exact h
    next e s' heq =>
      rw [heq] at h
      exact h

theorem pySplit_git_checkout (x : PyStr) :
    pySplit ' ' (toL "git checkout " ++ x) =
      toL "git" :: toL "checkout" :: pySplit ' ' x := by
  have e : toL "git checkout " ++ x = toL "git" ++ ' ' :: (toL "checkout" ++ ' ' :: x) := rfl
  rw [e, pySplit_append ' ' (toL "git") _ (by decide),
    pySplit_append ' ' (toL "checkout") _ (by decide)]

theorem pySplit_git_checkout_b (x : PyStr) :
    pySplit ' ' (toL "git checkout -b " ++ x) =
      toL "git" :: toL "checkout" :: toL "-b" :: pySplit ' ' x := by
  have e : toL "git checkout -b " ++ x =
      toL "git" ++ ' ' :: (toL "checkout" ++ ' ' :: (toL "-b" ++ ' ' :: x)) := rfl
  rw [e, pySplit_append ' ' (toL "git") _ (by decide),
    pySplit_append ' ' (toL "checkout") _ (by decide),
    pySplit_append ' ' (toL "-b") _ (by decide)]

theorem pySplit_git_branch_d (x : PyStr) :
    pySplit ' ' (toL "git branch -d " ++ x) =
      toL "git" :: toL "branch" :: toL "-d" :: pySplit ' ' x := by
  have e : toL "git branch -d " ++ x =
      toL "git" ++ ' ' :: (toL "branch" ++ ' ' :: (toL "-d" ++ ' ' :: x)) := rfl
  rw [e, pySplit_append ' ' (toL "git") _ (by decide),
    pySplit_append ' ' (toL "branch") _ (by decide),
    pySplit_append ' ' (toL "-d") _ (by decide)]

theorem pySplit_git_branch_m (a b : PyStr) (ha : ' ' ∉ a) (hb : ' ' ∉ b) :
    pySplit ' ' (toL "git branch -m " ++ a ++ toL " " ++ b) =
      [toL "git", toL "branch", toL "-m", a, b] := by
  have e : toL "git branch -m " ++ a ++ toL " " ++ b =
      toL "git" ++ ' ' :: (toL "branch" ++ ' ' :: (toL "-m" ++ ' ' :: (a ++ ' ' :: b))) := by
    have e1 : toL "git branch -m " ++ a ++ toL " " ++ b =
        toL "git branch -m " ++ (a ++ (toL " " ++ b)) := by
      simp [List.append_assoc]
    rw [e1]
    rfl
  rw [e, pySplit_append ' ' (toL "git") _ (by decide),
    pySplit_append ' ' (toL "branch") _ (by decide),
    pySplit_append ' ' (toL "-m") _ (by decide),
    pySplit_append ' ' a b ha, pySplit_not_mem ' ' b hb]

theorem pySplit_git_log (x : PyStr) :
    pySplit ' ' (toL "git log --oneline " ++ x) =
      toL "git" :: toL "log" :: pySplit ' ' (toL "--oneline " ++ x) := by
  have e : toL "git log --oneline " ++ x =
      toL "git" ++ ' ' :: (toL "log" ++ ' ' :: (toL "--oneline " ++ x)) := rfl
  rw [e, pySplit_append ' ' (toL "git") _ (by decide),
    pySplit_append ' ' (toL "log") _ (by decide)]

theorem pySplit_git_log1 (x : PyStr) :
    pySplit ' ' (toL "git log --oneline -1 " ++ x) =
      toL "git" :: toL "log" :: pySplit ' ' (toL "--oneline -1 " ++ x) := by
  have e : toL "git log --oneline -1 " ++ x =
      toL "git" ++ ' ' :: (toL "log" ++ ' ' :: (toL "--oneline -1 " ++ x)) := rfl
  rw [e, pySplit_append ' ' (toL "git") _ (by decide),
    pySplit_append ' ' (toL "log") _ (by decide)]

theorem pySplit_git_fetch (x : PyStr) :
    pySplit ' ' (toL "git fetch " ++ x) =
      toL "git" :: toL "fetch" :: pySplit ' ' x := by
  have e : toL "git fetch " ++ x = toL "git" ++ ' ' :: (toL "fetch" ++ ' ' :: x) := rfl
  rw [e, pySplit_append ' ' (toL "git") _ (by decide),
    pySplit_append ' ' (toL "fetch") _ (by decide)]

theorem pySplit_git_push (x : PyStr) :
    pySplit ' ' (toL "git push " ++ x) =
      toL "git" :: toL "push" :: pySplit ' ' x := by
  have e : toL "git push " ++ x = toL "git" ++ ' ' :: (toL "push" ++ ' ' :: x) := rfl
  rw [e, pySplit_append ' ' (toL "git") _ (by decide),
    pySplit_append ' ' (toL "push") _ (by decide)]

theorem pySplit_echo (x : PyStr) :
    pySplit ' ' (toL "echo " ++ x) = toL "echo" :: pySplit ' ' x := by
  have e : toL "echo " ++ x = toL "echo" ++ ' ' :: x := rfl
  rw [e, pySplit_append ' ' (toL "echo") _ (by decide)]

theorem applyGitCmd_log_noop (x : PyStr) (s : PSt) :
    applyGitCmd (toL "git log --oneline " ++ x) s = s :=
  applyGitCmd_of_second_ne _ s (toL "log") _ (pySplit_git_log x) (by decide) (by decide)

theorem applyGitCmd_log1_noop (x : PyStr) (s : PSt) :
    applyGitCmd (toL "git log --oneline -1 " ++ x) s = s :=
  applyGitCmd_of_second_ne _ s (toL "log") _ (pySplit_git_log1 x) (by decide) (by decide)

theorem applyGitCmd_fetch_noop (x : PyStr) (s : PSt) :
    applyGitCmd (toL "git fetch " ++ x) s = s :=
  applyGitCmd_of_second_ne _ s (toL "fetch") _ (pySplit_git_fetch x) (by decide) (by decide)

theorem applyGitCmd_status (s : PSt) : applyGitCmd (toL "git status") s = s := rfl

theorem applyGitCmd_status_porcelain (s : PSt) :
    applyGitCmd (toL "git status --porcelain --untracked-files=no") s = s := rfl

theorem applyGitCmd_reset_soft (s : PSt) :
    applyGitCmd (toL "git reset --soft HEAD^") s = s := rfl

theorem applyGitCmd_reset_hard (s : PSt) :
    applyGitCmd (toL "git reset --hard HEAD^") s = s := rfl

theorem applyGitCmd_for_each_ref (s : PSt) :
    applyGitCmd
      (toL "git for-each-ref --format=\"%(refname:short)\" --sort=authordate refs/heads/change-*")
      s = s := rfl

theorem applyGitCmd_checkout (x : PyStr) (hx : ' ' ∉ x) (s : PSt) :
    applyGitCmd (toL "git checkout " ++ x) s = { s with current := x } := by
  unfold applyGitCmd
  rw [pySplit_git_checkout, pySplit_not_mem ' ' x hx]
  show (if toL "git" = toL "git" ∧ toL "checkout" = toL "checkout" then
      { s with current := x } else s) = { s with current := x }
  rw [if_pos ⟨rfl, rfl⟩]

theorem applyGitCmd_checkout_b (x : PyStr) (hx : ' ' ∉ x) (s : PSt) :
    applyGitCmd (toL "git checkout -b " ++ x) s =
      { s with branches := s.branches ++ [x], current := x } := by
  unfold applyGitCmd
  rw [pySplit_git_checkout_b, pySplit_not_mem ' ' x hx]
  show (if toL "git" = toL "git" ∧ toL "checkout" = toL "checkout" ∧ toL "-b" = toL "-b" then
      { s with branches := s.branches ++ [x], current := x }
    else if toL "git" = toL "git" ∧ toL "checkout" = toL "branch" ∧ toL "-b" = toL "-d" then
      { s with branches := s.branches.erase x }
    else s) = { s with branches := s.branches ++ [x], current := x }
  rw [if_pos ⟨rfl, rfl, rfl⟩]

theorem applyGitCmd_branch_d (x : PyStr) (hx : ' ' ∉ x) (s : PSt) :
    applyGitCmd (toL "git branch -d " ++ x) s =
      { s with branches := s.branches.erase x } := by
  unfold applyGitCmd
  rw [pySplit_git_branch_d, pySplit_not_mem ' ' x hx]
  show (if toL "git" = toL "git" ∧ toL "branch" = toL "checkout" ∧ toL "-d" = toL "-b" then
      { s with branches := s.branches ++ [x], current := x }
    else if toL "git" = toL "git" ∧ toL "branch" = toL "branch" ∧ toL "-d" = toL "-d" then
      { s with branches := s.branches.erase x }
    else s) = { s with branches := s.branches.erase x }
  rw [if_neg (by decide), if_pos ⟨rfl, rfl, rfl⟩]

theorem applyGitCmd_branch_m (a b : PyStr) (ha : ' ' ∉ a) (hb : ' ' ∉ b) (s : PSt) :
    applyGitCmd (toL "git branch -m " ++ a ++ toL " " ++ b) s =
      { s with branches := s.branches.erase a ++ [b],
               current := if s.current = a then b else s.current } := by
  unfold applyGitCmd
  rw [pySplit_git_branch_m a b ha hb]
  show (if toL "git" = toL "git" ∧ toL "branch" = toL "branch" ∧ toL "-m" = toL "-m" then
      { s with branches := s.branches.erase a ++ [b],
               current := if s.current = a then b else s.current }
    else s) =
    { s with branches := s.branches.erase a ++ [b],
             current := if s.current = a then b else s.current }
  rw [if_pos ⟨rfl, rfl, rfl⟩]

theorem applyGitCmd_push (flags : Flags) (b : PyStr) (s : PSt) :
    applyGitCmd (build_push_command flags b) s = s := by
  have key : ∀ y : PyStr, applyGitCmd (toL "git push " ++ y) s = s := fun y =>
    applyGitCmd_of_second_ne _ s (toL "push") _ (pySplit_git_push y) (by decide) (by decide)
  have keyEcho : ∀ y : PyStr, applyGitCmd (toL "echo " ++ y) s = s := fun y =>
    applyGitCmd_of_head_ne _ s (toL "echo") _ (pySplit_echo y) (by decide)
  simp only [build_push_command]
  repeat' split
  all_goals
    first
      | exact keyEcho _
      | (simp only [List.append_assoc]; exact key _)

theorem jIndex_branches (r : JObj) (k : PyStr) :
    ∀ env s, ((jIndex r k env s).2).branches = s.branches := by
  intro env s
  unfold jIndex
  cases List.lookup k r <;> rfl

theorem build_push_command_m_branches (b : PyStr) :
    ∀ env s, ((build_push_command_m b env s).2).branches = s.branches := by
  intro env s
  unfold build_push_command_m
  split <;> rfl

theorem search_gerrit_branches (query : PyStr) :
    ∀ env s, ((search_gerrit query env s).2).branches = s.branches := by
  intro env s
  unfold search_gerrit
  have h := run_command_branches
    (toL "ssh " ++ env.flags.gerritSshHost ++ toL " gerrit query --format=JSON " ++ query)
    (fun st => by rw [applyGitCmd_ssh]) true false true env s
  split
  next response s' heq => rw [heq] at h; exact h
  next e s' heq => rw [heq] at h; exact h

theorem get_change_id_from_branch_branches :
    ∀ env s, ((get_change_id_from_branch env s).2).branches = s.branches := by
  intro env s
  unfold get_change_id_from_branch
  rw [M_bind_def]
  have h := get_branch_branches env s
  split
  next a s' heq => rw [heq] at h; exact h
  next e s' heq => rw [heq] at h; exact h

theorem get_change_id_from_head_branches :
    ∀ env s, ((get_change_id_from_head env s).2).branches = s.branches := by
  intro env s
  unfold get_change_id_from_head
  rw [M_bind_def]
  have h := run_command_branches (toL "git cat-file -p HEAD")
    (fun st => by rw [applyGitCmd_catfile]) true false true env s
  split
  next a s' heq => rw [heq] at h; exact h
  next e s' heq => rw [heq] at h; exact h

theorem get_change_branches_pres (change_id : PyStr) :
    ∀ env s, ((get_change change_id env s).2).branches = s.branches := by
  intro env s
  unfold get_change
  rw [M_bind_def]
  split
  next pair s' heq =>
    have h := search_gerrit_branches (toL "change:" ++ change_id) env s
    rw [heq] at h
    rw [M_ite_apply]
    split
    · rw [M_bind_def, exit_error_eval]
      exact h
    · rw [M_ite_apply]
      split
      · rw [M_bind_def, exit_error_eval]
        exact h
      · exact h
  next e s' heq =>
    have h := search_gerrit_branches (toL "change:" ++ change_id) env s
    rw [heq] at h
    exact h

theorem commit_change_branches (args : Option (List PyStr)) :
    ∀ env s, ((commit_change args env s).2).branches = s.branches := by
  intro env s
  unfold commit_change
  rw [M_bind_def]
  exact run_command_shell_branches _ env s

theorem check_for_pending_changes_branches :
    ∀ env s, ((check_for_pending_changes env s).2).branches = s.branches := by
  intro env s
  unfold check_for_pending_changes
  rw [M_bind_def]
  split
  next out s' heq =>
    have h := run_command_branches (toL "git status --porcelain --untracked-files=no")
      (fun st => by rw [applyGitCmd_status_porcelain]) true false true env s
    rw [heq] at h
    rw [M_ite_apply]
    split
    · rw [M_bind_def]
      split
      next o2 s2 heq2 =>
        have h2 := run_command_branches (toL "git status")
          (fun st => by rw [applyGitCmd_status]) false false true env s'
        rw [heq2] at h2
        rw [exit_error_eval]
        exact h2.trans h
      next e2 s2 heq2 =>
        have h2 := run_command_branches (toL "git status")
          (fun st => by rw [applyGitCmd_status]) false false true env s'
        rw [heq2] at h2
        exact h2.trans h
    · exact h
  next e s' heq =>
    have h := run_command_branches (toL "git status --porcelain --untracked-files=no")
      (fun st => by rw [applyGitCmd_status_porcelain]) true false true env s
    rw [heq] at h
    exact h

theorem sanity_check_merge_commit_branches :
    ∀ env s, ((sanity_check_merge_commit env s).2).branches = s.branches := by
  intro env s
  unfold sanity_check_merge_commit
  rw [M_bind_def]
  split
  next out s' heq =>
    have h := run_command_branches (toL "git cat-file -p HEAD")
      (fun st => by rw [applyGitCmd_catfile]) true false true env s
    rw [heq] at h
    rw [M_ite_apply]
    split
    · rw [M_bind_def]
      split
      next ui s2 heq2 =>
        have h2 := raw_input_branches (toL "The HEAD commit does not look like a merge. Continue? ") env s'
        rw [heq2] at h2
        rw [M_ite_apply]
        split
        · exact h2.trans h
        · rw [M_bind_def]
          exact h2.trans h
      next e2 s2 heq2 =>
        have h2 := raw_input_branches (toL "The HEAD commit does not look like a merge. Continue? ") env s'
        rw [heq2] at h2
        exact h2.trans h
    · exact h
  next e s' heq =>
    have h := run_command_branches (toL "git cat-file -p HEAD")
      (fun st => by rw [applyGitCmd_catfile]) true false true env s
    rw [heq] at h
    exact h

theorem M_ite_branches {α : Type} (c : Prop) [Decidable c] (X Y : M α)
    (hX : ∀ env s, ((X env s).2).branches = s.branches)
    (hY : ∀ env s, ((Y env s).2).branches = s.branches) :
    ∀ env s, (((if c then X else Y) env s).2).branches = s.branches := by
  intro env s
  split
  · exact hX env s
  · exact hY env s

theorem check_unmerged_commits_branches (branch : PyStr) :
    ∀ env s, ((check_unmerged_commits branch env s).2).branches = s.branches := by
  unfold check_unmerged_commits
  refine M_bind_branches _ _ readFlags_branches ?_
  intro flags
  refine M_bind_branches _ _
    (run_command_branches _
      (fun st => by simp only [List.append_assoc]; rw [applyGitCmd_log_noop]) true false true) ?_
  intro output
  refine M_ite_branches _ _ _ (M_pure_branches false) ?_
  refine M_bind_branches _ _ (pyPrint_branches _) ?_
  intro u1
  refine M_bind_branches _ _ (emit_branches _) ?_
  intro u2
  refine M_bind_branches _ _ (raw_input_branches _) ?_
  intro ui
  refine M_ite_branches _ _ _ (M_pure_branches false) ?_
  refine M_bind_branches _ _ (pyPrint_branches _) ?_
  intro u3
  exact M_pure_branches true

theorem determine_branches_branches :
    ∀ env s, ((determine_branches env s).2).branches = s.branches := by
  unfold determine_branches
  refine M_bind_branches _ _ get_branch_branches ?_
  intro ob
  refine M_bind_branches _ _ readFlags_branches ?_
  intro flags
  refine M_ite_branches _ _ _ ?_ ?_
  · refine M_bind_branches _ _ get_change_id_from_branch_branches ?_
    intro cid?
    cases cid? with
    | none =>
      refine M_bind_branches _ _ (exit_error_branches _ _ _) ?_
      intro u
      exact M_pure_branches _
    | some pid =>
      refine M_bind_branches _ _ (get_change_branches_pres pid) ?_
      intro pc
      refine M_bind_branches _ _ (jIndex_branches pc _) ?_
      intro tb
      exact M_pure_branches _
  · refine M_ite_branches _ _ _ ?_ (M_pure_branches _)
    refine M_bind_branches _ _ (exit_error_branches _ _ _) ?_
    intro u
    exact M_pure_branches _

theorem rollback_pair_never_ok (b1 b2 : PyStr) (code : Int) (env : PEnv) (s : PSt)
    (a : Unit) (s' : PSt) :
    (do
      let _ ← run_command (toL "git checkout " ++ b1) false false true
      let _ ← run_command (toL "git branch -d " ++ b2) false false true
      sysExit code) env s ≠ (.ok a, s') := by
  intro h
  rw [M_bind_def] at h
  split at h
  next o1 s1 heq1 =>
    rw [M_bind_def] at h
    split at h
    next o2 s2 heq2 =>
      unfold sysExit at h
      simp at h
    next e2 s2 heq2 => simp at h
  next e1 s1 heq1 => simp at h

theorem commit_staged_changes_ok_branches (ob tmp : PyStr) (env : PEnv) (s : PSt)
    (a : Unit) (s' : PSt)
    (h : commit_staged_changes ob tmp env s = (.ok a, s')) :
    s'.branches = s.branches := by
  unfold commit_staged_changes pyTry at h
  split at h
  next a2 s2 heq =>
    have hb := commit_change_branches none env s
    rw [heq] at hb
    rw [Prod.mk.injEq] at h
    rw [← h.2]
    exact hb
  next e s2 heq =>
    cases e with
    | keyboardInterrupt => exact absurd h (rollback_pair_never_ok ob tmp 1 env s2 a s')
    | calledProcessError code cmd so se =>
      exact absurd h (rollback_pair_never_ok ob tmp code env s2 a s')
    | eofError => simp [liftExc] at h
    | gitError => simp [liftExc] at h
    | valueError => simp [liftExc] at h
    | keyError => simp [liftExc] at h
    | indexError => simp [liftExc] at h
    | systemExit st => simp [liftExc] at h

theorem run_command_okcase_branches (command : PyStr) (g : List PyStr → List PyStr)
    (heff : ∀ st : PSt, (applyGitCmd command st).branches = g st.branches)
    (ts te oe : Bool) (env : PEnv) (s : PSt) (r : PyStr) (s' : PSt)
    (hdry : env.flags.dryRun = false)
    (h : run_command command ts te oe env s = (.ok r, s')) :
    s'.branches = g s.branches := by
  unfold run_command at h
  simp only [hdry, Bool.false_eq_true, if_false] at h
  split at h
  next heq => simp at h
  next code out err heq =>
    split at h
    next hc =>
      rw [Prod.mk.injEq] at h
      rw [← h.2]
      exact heff _
    next hc => simp at h

theorem create_change_precheck_branches :
    ∀ env s, ((create_change_precheck env s).2).branches = s.branches := by
  unfold create_change_precheck
  refine M_bind_branches _ _ readFlags_branches ?_
  intro flags
  refine M_bind_branches _ _ ?_ ?_
  · refine M_ite_branches _ _ _ ?_ (M_pure_branches _)
    refine M_bind_branches _ _
      (run_command_branches _ (fun st => by rw [applyGitCmd_diff_cached]) true false true) ?_
    intro d
    refine M_ite_branches _ _ _ (exit_error_branches _ _ _) (M_pure_branches _)
  intro u1
  refine M_bind_branches _ _ ?_ ?_
  · refine M_ite_branches _ _ _ ?_ (M_pure_branches _)
    refine M_bind_branches _ _ check_for_pending_changes_branches ?_
    intro u
    exact sanity_check_merge_commit_branches
  intro u2
  refine M_bind_branches _ _ determine_branches_branches ?_
  intro pair
  refine M_bind_branches _ _ ?_ ?_
  · refine M_ite_branches _ _ _ ?_ (M_pure_branches _)
    refine M_bind_branches _ _
      (run_command_branches _ (fun st => by rw [applyGitCmd_fetch_noop]) false false true) ?_
    intro u
    exact M_pure_branches _
  intro u3
  refine M_bind_branches _ _ ?_ ?_
  · refine M_ite_branches _ _ _ ?_ (M_pure_branches _)
    refine M_bind_branches _ _ (check_unmerged_commits_branches pair.1) ?_
    intro ahead
    refine M_ite_branches _ _ _ (sysExit_branches 1) (M_pure_branches _)
  intro u4
  exact M_pure_branches _

theorem create_change_mkbranch_branches (ob tmp : PyStr) (env : PEnv) (s : PSt)
    (cid? : Option PyStr) (s' : PSt)
    (hdry : env.flags.dryRun = false) (htmp : ' ' ∉ tmp)
    (h : create_change_mkbranch ob tmp env s = (.ok cid?, s')) :
    s'.branches = s.branches ++ [tmp] := by
  unfold create_change_mkbranch at h
  rw [M_bind_def] at h
  split at h
  next flags s1 heq0 =>
    have hs1 : s = s1 := by
      have : readFlags env s = (.ok env.flags, s) := rfl
      rw [this] at heq0
      rw [Prod.mk.injEq] at heq0
      exact heq0.2
    subst hs1
    rw [M_bind_def] at h
    split at h
    next r1 s2 heq1 =>
      have hb1 : s2.branches = s.branches ++ [tmp] :=
        run_command_okcase_branches _ (fun l => l ++ [tmp])
          (fun st => by rw [applyGitCmd_checkout_b tmp htmp st]) true false true env s r1 s2
          hdry heq1
      rw [M_bind_def] at h
      split at h
      next u2 s3 heq2 =>
        have hb2 : s3.branches = s2.branches := by
          rw [M_ite_apply] at heq2
          split at heq2
          · exact commit_staged_changes_ok_branches ob tmp env s2 u2 s3 heq2
          · have : (pure () : M Unit) env s2 = (.ok (), s2) := rfl
            rw [this, Prod.mk.injEq] at heq2
            rw [← heq2.2]
        rw [M_bind_def] at h
        split at h
        next c1 s4 heq3 =>
          have hb3 : s4.branches = s3.branches := by
            have := get_change_id_from_head_branches env s3
            rw [heq3] at this
            exact this
          rw [M_ite_apply] at h
          split at h
          · rw [M_bind_def] at h
            split at h
            next u5 s5 heq4 =>
              have hb4 : s5.branches = s4.branches := by
                have := commit_change_branches (some [toL "--amend"]) env s4
                rw [heq4] at this
                exact this
              have hb5 : s'.branches = s5.branches := by
                have := get_change_id_from_head_branches env s5
                rw [h] at this
                exact this
              rw [hb5, hb4, hb3, hb2, hb1]
            next e5 s5 heq4 => simp at h
          · have : (pure c1 : M (Option PyStr)) env s4 = (.ok c1, s4) := rfl
            rw [this, Prod.mk.injEq] at h
            rw [← h.2, hb3, hb2, hb1]
        next e4 s4 heq3 => simp at h
      next e3 s3 heq2 => simp at h
    next e2 s2 heq1 => simp at h
  next e1 s1 heq0 =>
    have : readFlags env s = (.ok env.flags, s) := rfl
    rw [this] at heq0
    simp at heq0

theorem pyPrint_eval (m : PyStr) (env : PEnv) (s : PSt) :
    pyPrint m env s = (.ok (), { s with trace := s.trace ++ [.echo m] }) := rfl

theorem create_change_setup_branches (env : PEnv) (s₀ : PSt) (ob tb nb : PyStr) (s₁ : PSt)
    (hdry : env.flags.dryRun = false)
    (hts : ' ' ∉ env.timestamp)
    (hnb : ' ' ∉ nb)
    (h : create_change_setup env s₀ = (.ok (ob, tb, nb), s₁)) :
    s₁.branches = (s₀.branches ++ [toL "tmp-change-" ++ env.timestamp]).erase
        (toL "tmp-change-" ++ env.timestamp) ++ [nb] ∨
      (s₁.branches = s₀.branches ++ [nb] ∧ nb = toL "tmp-change-" ++ env.timestamp) := by
  have htmp : ' ' ∉ toL "tmp-change-" ++ env.timestamp := by
    intro hm
    rcases List.mem_append.mp hm with h1 | h1
    · exact absurd h1 (by decide)
    · exact hts h1
  unfold create_change_setup at h
  rw [M_bind_def] at h
  split at h
  next pair sA heqA =>
    have hA : sA.branches = s₀.branches := by
      have := create_change_precheck_branches env s₀
      rw [heqA] at this
      exact this
    rw [M_bind_def] at h
    split at h
    next ts sB heqB =>
      have e1 : readTimestamp env sA = (.ok env.timestamp, sA) := rfl
      rw [e1, Prod.mk.injEq] at heqB
      obtain ⟨hts1, hsB⟩ := heqB
      have hts2 : env.timestamp = ts := by
        injection hts1
      subst hts2
      subst hsB
      rw [M_bind_def] at h
      split at h
      next cid? sC heqC =>
        have hC : sC.branches = sA.branches ++ [toL "tmp-change-" ++ env.timestamp] :=
          create_change_mkbranch_branches pair.1 (toL "tmp-change-" ++ env.timestamp)
            env sA cid? sC hdry htmp heqC
        cases cid? with
        | none =>
          dsimp only at h
          rw [M_bind_def] at h
          split at h
          next u1 sD heqD =>
            have hD : sD.branches = sC.branches := by
              have := pyPrint_branches (toL "\nWARNING: Reading change ID from the HEAD commit failed. (You may need to\ninstall the Gerrit commit-msg hook.) Before continuing, you need to add\nthe change ID header to the HEAD commit message (git commit --amend) and\nrename the branch " ++ (toL "tmp-change-" ++ env.timestamp) ++ toL " to change-<change-ID> manaully.") env sC
              rw [heqD] at this
              exact this
            rw [M_bind_def] at h
            split at h
            next u2 sE heqE =>
              have hE : sE.branches = sD.branches := by
                have := pyPrint_branches (toL "\nCreated branch: " ++ (toL "tmp-change-" ++ env.timestamp) ++ toL "\n") env sD
                rw [heqE] at this
                exact this
              have e2 : (pure (pair.1, pair.2, toL "tmp-change-" ++ env.timestamp) :
                  M (PyStr × PyStr × PyStr)) env sE =
                  (.ok (pair.1, pair.2, toL "tmp-change-" ++ env.timestamp), sE) := rfl
              rw [e2, Prod.mk.injEq] at h
              obtain ⟨htriple, hs1⟩ := h
              have hnb2 : nb = toL "tmp-change-" ++ env.timestamp := by
                have := congrArg (fun t : PyStr × PyStr × PyStr => t.2.2)
                  (Except.ok.inj htriple)
                exact this.symm
              refine Or.inr ⟨?_, hnb2⟩
              rw [← hs1, hE, hD, hC, hA, hnb2]
            next e s' heq' =>
              rw [pyPrint_eval] at heq'
              simp at heq'
          next e s' heq' =>
            rw [pyPrint_eval] at heq'
            simp at heq'
        | some change_id =>
          dsimp only at h
          rw [M_bind_def] at h
          split at h
          next r1 sD heqD =>
            rw [M_bind_def] at h
            split at h
            next u2 sE heqE =>
              have hE : sE.branches = sD.branches := by
                have := pyPrint_branches (toL "\nCreated branch: " ++ (toL "change-" ++ change_id) ++ toL "\n") env sD
                rw [heqE] at this
                exact this
              have e2 : (pure (pair.1, pair.2, toL "change-" ++ change_id) :
                  M (PyStr × PyStr × PyStr)) env sE =
                  (.ok (pair.1, pair.2, toL "change-" ++ change_id), sE) := rfl
              rw [e2, Prod.mk.injEq] at h
              obtain ⟨htriple, hs1⟩ := h
              have hnb2 : nb = toL "change-" ++ change_id := by
                have := congrArg (fun t : PyStr × PyStr × PyStr => t.2.2)
                  (Except.ok.inj htriple)
                exact this.symm
              have hD : sD.branches =
                  sC.branches.erase (toL "tmp-change-" ++ env.timestamp) ++
                    [toL "change-" ++ change_id] := by
                refine run_command_okcase_branches _
                  (fun l => l.erase (toL "tmp-change-" ++ env.timestamp) ++
                    [toL "change-" ++ change_id])
                  (fun st => ?_) false false true env sC r1 sD hdry heqD
                rw [applyGitCmd_branch_m (toL "tmp-change-" ++ env.timestamp)
                  (toL "change-" ++ change_id) htmp (hnb2 ▸ hnb) st]
              refine Or.inl ?_
              rw [← hs1, hE, hD, hC, hA, hnb2]
            next e s' heq' =>
              rw [pyPrint_eval] at heq'
              simp at heq'
          next e s' heq' => simp at h
      next e sC heqC => simp at h
    next e sB heqB =>
      have e1 : readTimestamp env sA = (.ok env.timestamp, sA) := rfl
      rw [e1] at heqB
      simp at heqB
  next e sA heqA => simp at h

theorem M_bind_ok {α β : Type} (x : M α) (f : α → M β) (env : PEnv) (s : PSt)
    (a : α) (s' : PSt) (h : x env s = (.ok a, s')) :
    (x >>= f) env s = f a env s' := by
  rw [M_bind_def, h]

theorem M_bind_error2 {α β : Type} (x : M α) (f : α → M β) (env : PEnv) (s : PSt)
    (e : PyExc) (s' : PSt) (h : x env s = (.error e, s')) :
    (x >>= f) env s = (.error e, s') := by
  rw [M_bind_def, h]

theorem pyTry_error_case {α : Type} (body : M α) (handler : PyExc → M α)
    (env : PEnv) (s : PSt) (e : PyExc) (s' : PSt)
    (h : body env s = (.error e, s')) :
    pyTry body handler env s = handler e env s' := by
  unfold pyTry
  rw [h]

theorem rollback_eval (ob nb : PyStr) (c : Int) (env : PEnv) (t : PSt)
    (r1o r1e r2o r2e r3o r3e : PyStr)
    (hdry : env.flags.dryRun = false) (hob : ' ' ∉ ob) (hnb : ' ' ∉ nb)
    (h1 : env.cmds t.cmdIdx = .finished 0 r1o r1e)
    (h2 : env.cmds (t.cmdIdx + 1) = .finished 0 r2o r2e)
    (h3 : env.cmds (t.cmdIdx + 2) = .finished 0 r3o r3e) :
    (do
      let _ ← run_command (toL "git reset --soft HEAD^") false false true
      let _ ← run_command (toL "git checkout " ++ ob) false false true
      let _ ← run_command (toL "git branch -d " ++ nb) false false true
      sysExit c : M Unit) env t =
      (.error (.systemExit c),
        { t with cmdIdx := t.cmdIdx + 3,
                 trace := t.trace ++
                   [.cmd (toL "git reset --soft HEAD^") (.finished 0 r1o r1e),
                    .cmd (toL "git checkout " ++ ob) (.finished 0 r2o r2e),
                    .cmd (toL "git branch -d " ++ nb) (.finished 0 r3o r3e),
                    .exited c],
                 branches := t.branches.erase nb,
                 current := ob }) := by
  have e1 : run_command (toL "git reset --soft HEAD^") false false true env t =
      (.ok [],
        { t with cmdIdx := t.cmdIdx + 1,
                 trace := t.trace ++
                   [.cmd (toL "git reset --soft HEAD^") (.finished 0 r1o r1e)] }) := by
    rw [run_command_ok _ false false true env t r1o r1e hdry h1, applyGitCmd_reset_soft]
    simp
  have e2 : run_command (toL "git checkout " ++ ob) false false true env
      { t with cmdIdx := t.cmdIdx + 1,
               trace := t.trace ++
                 [.cmd (toL "git reset --soft HEAD^") (.finished 0 r1o r1e)] } =
      (.ok [],
        { t with cmdIdx := t.cmdIdx + 2,
                 trace := t.trace ++
                   [.cmd (toL "git reset --soft HEAD^") (.finished 0 r1o r1e),
                    .cmd (toL "git checkout " ++ ob) (.finished 0 r2o r2e)],
                 current := ob }) := by
    rw [run_command_ok _ false false true env _ r2o r2e hdry h2, applyGitCmd_checkout ob hob]
    simp
  have e3 : run_command (toL "git branch -d " ++ nb) false false true env
      { t with cmdIdx := t.cmdIdx + 2,
               trace := t.trace ++
                 [.cmd (toL "git reset --soft HEAD^") (.finished 0 r1o r1e),
                  .cmd (toL "git checkout " ++ ob) (.finished 0 r2o r2e)],
               current := ob } =
      (.ok [],
        { t with cmdIdx := t.cmdIdx + 3,
                 trace := t.trace ++
                   [.cmd (toL "git reset --soft HEAD^") (.finished 0 r1o r1e),
                    .cmd (toL "git checkout " ++ ob) (.finished 0 r2o r2e),
                    .cmd (toL "git branch -d " ++ nb) (.finished 0 r3o r3e)],
                 branches := t.branches.erase nb,
                 current := ob }) := by
    rw [run_command_ok _ false false true env _ r3o r3e hdry h3, applyGitCmd_branch_d nb hnb]
    simp
  rw [M_bind_def, e1]
  dsimp only
  rw [M_bind_def, e2]
  dsimp only
  rw [M_bind_def, e3]
  dsimp only
  unfold sysExit
  simp

theorem create_change_finish_pushfail (ob tb nb : PyStr) (env : PEnv) (s : PSt)
    (c : Int) (out err r1o r1e r2o r2e r3o r3e : PyStr)
    (hdry : env.flags.dryRun = false) (hfake : env.flags.fakePush = false)
    (hob : ' ' ∉ ob) (hnb : ' ' ∉ nb)
    (h0 : env.cmds s.cmdIdx = .finished c out err) (hc : c ≠ 0)
    (h1 : env.cmds (s.cmdIdx + 1) = .finished 0 r1o r1e)
    (h2 : env.cmds (s.cmdIdx + 2) = .finished 0 r2o r2e)
    (h3 : env.cmds (s.cmdIdx + 3) = .finished 0 r3o r3e) :
    create_change_finish ob tb nb env s =
      (.error (.systemExit c),
        { s with cmdIdx := s.cmdIdx + 4,
                 trace := s.trace ++
                   [.cmd (build_push_command env.flags tb) (.finished c out err),
                    .echo (toL "Error running \"" ++ build_push_command env.flags tb ++ toL "\""),
                    .echo (toL "  return code: " ++ toL c.repr),
                    .cmd (toL "git reset --soft HEAD^") (.finished 0 r1o r1e),
                    .cmd (toL "git checkout " ++ ob) (.finished 0 r2o r2e),
                    .cmd (toL "git branch -d " ++ nb) (.finished 0 r3o r3e),
                    .exited c],
                 branches := s.branches.erase nb,
                 current := ob }) := by
  have epush : run_command (build_push_command env.flags tb) false false true env s =
      (.error (.calledProcessError c (build_push_command env.flags tb) [] []),
        { s with cmdIdx := s.cmdIdx + 1,
                 trace := s.trace ++
                   [.cmd (build_push_command env.flags tb) (.finished c out err),
                    .echo (toL "Error running \"" ++ build_push_command env.flags tb ++ toL "\""),
                    .echo (toL "  return code: " ++ toL c.repr)] }) := by
    rw [run_command_fail (build_push_command env.flags tb) false false true env s c out err
      hdry h0 hc]
    simp
  have e0 : readFlags env s = (.ok env.flags, s) := rfl
  have e1 : build_push_command_m tb env s = (.ok (build_push_command env.flags tb), s) := by
    unfold build_push_command_m
    simp [hfake]
  unfold create_change_finish
  rw [M_bind_def, e0]
  dsimp only
  rw [M_bind_def, e1]
  dsimp only
  rw [M_bind_def, pyTry_error_case _ _ env s _ _ (M_bind_error2 _ _ env s _ _ epush)]
  dsimp only
  rw [rollback_eval ob nb c env _ r1o r1e r2o r2e r3o r3e hdry hob hnb h1 h2 h3]
  dsimp only
  simp

/-- C2: in create, whenever the push command fails with a non-zero exit
status, the engine performs exactly the rollback sequence soft-reset,
checkout of the original branch, deletion of the newly named change branch,
and terminates with the push command's exit code; the pre-create branch set
is restored and the failure is not swallowed. -/
theorem C2_theorem (env : PEnv) (s₀ s₁ : PSt) (ob tb nb : PyStr) (c : Int)
    (out err r1o r1e r2o r2e r3o r3e : PyStr)
    (hdry : env.flags.dryRun = false) (hfake : env.flags.fakePush = false)
    (hts : ' ' ∉ env.timestamp) (hob : ' ' ∉ ob) (hnb : ' ' ∉ nb)
    (htmpfresh : toL "tmp-change-" ++ env.timestamp ∉ s₀.branches)
    (hnbfresh : nb ∉ s₀.branches)
    (hsetup : create_change_setup env s₀ = (.ok (ob, tb, nb), s₁))
    (h0 : env.cmds s₁.cmdIdx = .finished c out err) (hc : c ≠ 0)
    (h1 : env.cmds (s₁.cmdIdx + 1) = .finished 0 r1o r1e)
    (h2 : env.cmds (s₁.cmdIdx + 2) = .finished 0 r2o r2e)
    (h3 : env.cmds (s₁.cmdIdx + 3) = .finished 0 r3o r3e) :
    create_change env s₀ =
      (.error (.systemExit c),
        { s₁ with cmdIdx := s₁.cmdIdx + 4,
                  trace := s₁.trace ++
                    [.cmd (build_push_command env.flags tb) (.finished c out err),
                     .echo (toL "Error running \"" ++ build_push_command env.flags tb ++ toL "\""),
                     .echo (toL "  return code: " ++ toL c.repr),
                     .cmd (toL "git reset --soft HEAD^") (.finished 0 r1o r1e),
                     .cmd (toL "git checkout " ++ ob) (.finished 0 r2o r2e),
                     .cmd (toL "git branch -d " ++ nb) (.finished 0 r3o r3e),
                     .exited c],
                  branches := s₀.branches,
                  current := ob }) := by
  have hb1 : s₁.branches = s₀.branches ++ [nb] := by
    rcases create_change_setup_branches env s₀ ob tb nb s₁ hdry hts hnb hsetup with
      hbe | ⟨hbe, _⟩
    · rw [hbe, List.erase_append_right _ htmpfresh, List.erase_cons_head]
      simp
    · exact hbe
  have hbr : s₁.branches.erase nb = s₀.branches := by
    rw [hb1, List.erase_append_right _ hnbfresh, List.erase_cons_head]
    simp
  have hstep : create_change env s₀ = create_change_finish ob tb nb env s₁ := by
    unfold create_change
    rw [M_bind_def, hsetup]
  rw [hstep,
    create_change_finish_pushfail ob tb nb env s₁ c out err r1o r1e r2o r2e r3o r3e
      hdry hfake hob hnb h0 hc h1 h2 h3, hbr]

theorem C2_witness :
    create_change envC2 stC2 =
      (.error (.systemExit 3),
        { (create_change_setup envC2 stC2).2 with
            cmdIdx := (create_change_setup envC2 stC2).2.cmdIdx + 4,
            trace := (create_change_setup envC2 stC2).2.trace ++
              [.cmd (build_push_command envC2.flags (toL "master")) (.finished 3 [] []),
               .echo (toL "Error running \"" ++ build_push_command envC2.flags (toL "master") ++
                 toL "\""),
               .echo (toL "  return code: " ++ toL (3 : Int).repr),
               .cmd (toL "git reset --soft HEAD^") (.finished 0 [] []),
               .cmd (toL "git checkout " ++ toL "master") (.finished 0 [] []),
               .cmd (toL "git branch -d " ++ toL "change-Iabc") (.finished 0 [] []),
               .exited 3],
            branches := stC2.branches,
            current := toL "master" }) :=
  C2_theorem envC2 stC2 (create_change_setup envC2 stC2).2
    (toL "master") (toL "master") (toL "change-Iabc") 3 [] [] [] [] [] [] [] []
    rfl rfl (by decide) (by decide) (by decide) (by decide) (by decide)
    rfl rfl (by decide) rfl rfl rfl

theorem rollback_triple_never_ok (b1 b2 : PyStr) (code : Int) (env : PEnv) (s : PSt)
    (a : Unit) (s' : PSt) :
    (do
      let _ ← run_command (toL "git reset --soft HEAD^") false false true
      let _ ← run_command (toL "git checkout " ++ b1) false false true
      let _ ← run_command (toL "git branch -d " ++ b2) false false true
      sysExit code : M Unit) env s ≠ (.ok a, s') := by
  intro h
  rw [M_bind_def] at h
  split at h
  next o1 s1 heq1 =>
    exact rollback_pair_never_ok b1 b2 code env s1 a s' h
  next e1 s1 heq1 => simp at h

theorem create_change_finish_ok_branches (ob tb nb : PyStr) (env : PEnv) (s : PSt)
    (u : Unit) (s' : PSt)
    (hfake : env.flags.fakePush = false)
    (hob : ' ' ∉ ob) (hnb : ' ' ∉ nb)
    (h : create_change_finish ob tb nb env s = (.ok u, s')) :
    s'.branches = s.branches := by
  have e0 : readFlags env s = (.ok env.flags, s) := rfl
  have e1 : build_push_command_m tb env s = (.ok (build_push_command env.flags tb), s) := by
    unfold build_push_command_m
    simp [hfake]
  unfold create_change_finish at h
  rw [M_bind_def, e0] at h
  dsimp only at h
  rw [M_bind_def, e1] at h
  dsimp only at h
  rw [M_bind_def] at h
  split at h
  next u1 sB heqB =>
    have hB : sB.branches = s.branches := by
      unfold pyTry at heqB
      split at heqB
      next a sX heq2 =>
        rw [Prod.mk.injEq] at heqB
        obtain ⟨_, hsB⟩ := heqB
        subst hsB
        have := M_bind_branches
          (run_command (build_push_command env.flags tb) false false true)
          (fun x => (pure () : M Unit))
          (run_command_branches _ (fun st => by rw [applyGitCmd_push]) false false true)
          (fun a2 => M_pure_branches _) env s
        rw [heq2] at this
        exact this
      next e sX heq2 =>
        cases e <;> dsimp only at heqB
        case calledProcessError code cmd o se =>
          exact absurd heqB (rollback_triple_never_ok ob nb code env sX u1 sB)
        all_goals simp [liftExc] at heqB
    split at h
    next hmc =>
      have hval := congrArg (fun p : Except PyExc Unit × PSt => p.2.branches) h
      dsimp only at hval
      rw [← hval]
      refine Eq.trans ((M_bind_branches _ _
          (run_command_branches _ (fun st => by rw [applyGitCmd_checkout ob hob])
            false false true)
          (fun a2 => M_bind_branches _ _
            (run_command_branches _ (fun st => by rw [applyGitCmd_reset_hard])
              false false true)
            (fun a3 => M_bind_branches _ _ (pyPrint_branches _)
              (fun a4 => M_ite_branches _ _ _
                (M_bind_branches _ _
                  (run_command_branches _ (fun st => by rw [applyGitCmd_checkout nb hnb])
                    false false true)
                  (fun a5 => M_pure_branches _))
                (M_pure_branches _))))) env sB) hB
    next hmc =>
      have hval := congrArg (fun p : Except PyExc Unit × PSt => p.2.branches) h
      dsimp only at hval
      rw [← hval]
      refine Eq.trans ((M_ite_branches _ _ _
          (M_pure_branches _)
          (M_bind_branches _ _
            (run_command_or_die_branches _ (fun st => by rw [applyGitCmd_checkout ob hob]))
            (fun a2 => M_pure_branches _))) env sB) hB
  next e sB heqB => simp at h

/-- C3 (amended): a normal termination of create leaves exactly the new
branch behind: the final branch set is the initial one plus the returned
branch name, and whenever that name differs from `tmp-change-<timestamp>`
(the rename happened) no `tmp-change-<timestamp>` branch remains.  When the
Change-Id lookup fails the returned name IS the temporary name, which is
deliberately kept (see the counterexample). -/
theorem C3_theorem (env : PEnv) (s₀ s₁ s₂ : PSt) (ob tb nb : PyStr)
    (hdry : env.flags.dryRun = false) (hfake : env.flags.fakePush = false)
    (hts : ' ' ∉ env.timestamp) (hob : ' ' ∉ ob) (hnb : ' ' ∉ nb)
    (htmpfresh : toL "tmp-change-" ++ env.timestamp ∉ s₀.branches)
    (hsetup : create_change_setup env s₀ = (.ok (ob, tb, nb), s₁))
    (hfin : create_change_finish ob tb nb env s₁ = (.ok (), s₂)) :
    create_change env s₀ = (.ok (), s₂) ∧
      s₂.branches = s₀.branches ++ [nb] ∧
      (nb ≠ toL "tmp-change-" ++ env.timestamp →
        toL "tmp-change-" ++ env.timestamp ∉ s₂.branches) := by
  have hb1 : s₁.branches = s₀.branches ++ [nb] := by
    rcases create_change_setup_branches env s₀ ob tb nb s₁ hdry hts hnb hsetup with
      hbe | ⟨hbe, _⟩
    · rw [hbe, List.erase_append_right _ htmpfresh, List.erase_cons_head]
      simp
    · exact hbe
  have hb2 : s₂.branches = s₁.branches :=
    create_change_finish_ok_branches ob tb nb env s₁ () s₂ hfake hob hnb hfin
  refine ⟨?_, ?_, ?_⟩
  · unfold create_change
    rw [M_bind_def, hsetup]
    exact hfin
  · rw [hb2, hb1]
  · intro hne hmem
    rw [hb2, hb1] at hmem
    rcases List.mem_append.mp hmem with hm | hm
    · exact htmpfresh hm
    · exact hne (List.mem_singleton.mp hm).symm

theorem C3_counterexample :
    (create_change envC3none stC2).1 = Except.ok () ∧
      toL "tmp-change-1700000000.25" ∈ (create_change envC3none stC2).2.branches :=
  ⟨rfl, by decide⟩

theorem C3_witness :
    create_change envC3ok stC2 =
        (.ok (), (create_change_finish (toL "master") (toL "master") (toL "change-Iabc")
          envC3ok (create_change_setup envC3ok stC2).2).2) ∧
      (create_change_finish (toL "master") (toL "master") (toL "change-Iabc")
          envC3ok (create_change_setup envC3ok stC2).2).2.branches =
        stC2.branches ++ [toL "change-Iabc"] ∧
      (toL "change-Iabc" ≠ toL "tmp-change-" ++ envC3ok.timestamp →
        toL "tmp-change-" ++ envC3ok.timestamp ∉
          (create_change_finish (toL "master") (toL "master") (toL "change-Iabc")
            envC3ok (create_change_setup envC3ok stC2).2).2.branches) :=
  C3_theorem envC3ok stC2 (create_change_setup envC3ok stC2).2
    (create_change_finish (toL "master") (toL "master") (toL "change-Iabc")
      envC3ok (create_change_setup envC3ok stC2).2).2
    (toL "master") (toL "master") (toL "change-Iabc")
    rfl rfl (by decide) (by decide) (by decide) (by decide) rfl rfl
